import Mathlib

/-!
Verification of the TelemetryDashboard bridge core against its specification.

The Python sources (src/backend/maindata.py, src/outlier_detector.py,
src/maindata.py, src/mock_generator.py) are shallowly embedded below:

* Python floats are modelled as exact rationals (ℚ).  The only
  transcendental primitive the modelled code uses is math.sqrt /
  numpy.std; it is threaded through as an explicit oracle parameter
  sqrtF : ℚ → ℚ, so every definition stays executable.  Theorems that
  depend on the numeric value of a square root carry the hypothesis
  that the oracle is correct at the arguments actually evaluated.
* Python dicts keyed by field-name strings are modelled as association
  lists (List (String × _)) with in-place update, or as total functions
  String → _ where the dict is only read pointwise.
* Wall-clock reads (time.time, time.perf_counter) and the statistics
  counters derived from them are irrelevant to the verified claims and
  are omitted from the state.
-/

set_option linter.unusedVariables false

namespace Telemetry

/-! ## Python list and numeric primitives -/

/-- Python slice l[a:b] for nonnegative indices. -/
def pySlice (l : List ℚ) (a b : ℕ) : List ℚ := (l.take b).drop a

/-- Python slice l[a:]. -/
def pySliceFrom (l : List ℚ) (a : ℕ) : List ℚ := l.drop a

/-- Python slice l[:b]. -/
def pySliceTo (l : List ℚ) (b : ℕ) : List ℚ := l.take b

/-- Specification device: the n most recent elements of a list (the
suffix of length min n l.length), in order. -/
def lastSlice (n : ℕ) (l : List ℚ) : List ℚ := l.drop (l.length - n)

/-- Python round-half-to-even on an exact rational. -/
def rndHalfEven (x : ℚ) : ℤ :=
  let f : ℤ := ⌊x⌋
  let r : ℚ := x - f
  if r < 1/2 then f
  else if 1/2 < r then f + 1
  else if Even f then f else f + 1

/-- Python round(x, d): round to d decimal places, ties to even. -/
def pyRound (d : ℕ) (x : ℚ) : ℚ := (rndHalfEven (x * 10 ^ d) : ℚ) / 10 ^ d

/-- Python abs on an exact rational (spelled out so that the kernel can
evaluate it on concrete inputs). -/
def pyAbs (x : ℚ) : ℚ := if x < 0 then -x else x

/-! ## RollingWindow (src/backend/maindata.py lines 160-223)

The Python class keeps lazily cached statistics in the fields
_mean_cache, _std_cache and _dirty; the cache is semantically
transparent (it always holds the value recomputed from the buffer), so
mean / variance / std are modelled as the recomputed values and the
cache fields are dropped. -/

structure RollingWindow where
  size : ℕ
  buffer : List ℚ
  count : ℕ
  index : ℕ
  deriving Repr, DecidableEq

namespace RollingWindow

/-- Constructor: numpy.zeros buffer of the given size. -/
def init (size : ℕ) : RollingWindow :=
  ⟨size, List.replicate size 0, 0, 0⟩

/-- Method push of RollingWindow. -/
def push (w : RollingWindow) (v : ℚ) : RollingWindow :=
  { w with
    buffer := w.buffer.set w.index v
    index := (w.index + 1) % w.size
    count := min (w.count + 1) w.size }

/-- Method get_values of RollingWindow. -/
def getValues (w : RollingWindow) : List ℚ :=
  if w.count < w.size then w.buffer.take w.count else w.buffer

/-- Method mean of RollingWindow (numpy.mean over get_values). -/
def mean (w : RollingWindow) : ℚ :=
  if w.count = 0 then 0
  else
    let vs := w.getValues
    vs.sum / vs.length

/-- Population variance of the stored values (the square of numpy.std). -/
def variance (w : RollingWindow) : ℚ :=
  let vs := w.getValues
  if vs.length = 0 then 0
  else
    let μ := vs.sum / vs.length
    ((vs.map fun x => (x - μ) ^ 2).sum) / vs.length

/-- Method std of RollingWindow: numpy.std is the square root of the
population variance, taken through the sqrt oracle. -/
def std (sqrtF : ℚ → ℚ) (w : RollingWindow) : ℚ :=
  if w.count < 2 then 0 else sqrtF w.variance

/-- Method last_n of RollingWindow.  Python computes (end - n) % size
on signed integers; with 0 ≤ n ≤ size this equals (end + size - n) % size. -/
def lastN (w : RollingWindow) (n : ℕ) : List ℚ :=
  if w.count = 0 then []
  else
    let n := min n w.count
    if w.count < w.size then pySlice w.buffer (w.count - n) w.count
    else
      let e := w.index
      let s := (e + w.size - n) % w.size
      if s < e then pySlice w.buffer s e
      else pySliceFrom w.buffer s ++ pySliceTo w.buffer e

/-- Method reset of RollingWindow. -/
def reset (w : RollingWindow) : RollingWindow :=
  { w with buffer := List.replicate w.size 0, count := 0, index := 0 }

/-- Push a whole list of values, oldest first. -/
def pushAll (w : RollingWindow) (xs : List ℚ) : RollingWindow :=
  xs.foldl push w

/-- Specification device: the logical content of the circular buffer,
oldest surviving value first. -/
def content (w : RollingWindow) : List ℚ :=
  if w.count < w.size then w.buffer.take w.count
  else w.buffer.drop w.index ++ w.buffer.take w.index

/-- Well-formedness of a window state; holds for every state reachable
from init by pushes. -/
structure WF (w : RollingWindow) : Prop where
  pos : 0 < w.size
  len : w.buffer.length = w.size
  countLe : w.count ≤ w.size
  idxLt : w.index < w.size
  fillIdx : w.count < w.size → w.index = w.count

end RollingWindow

/-! ## GPSTrackWindow (src/backend/maindata.py lines 226-258)

The stored wall-clock timestamps (time.time() at push) are never read
by any caller, so they are omitted from the model. -/

structure GPSTrackWindow where
  size : ℕ
  lats : List ℚ
  lons : List ℚ
  alts : List ℚ
  count : ℕ
  index : ℕ
  deriving Repr, DecidableEq

namespace GPSTrackWindow

def init (size : ℕ) : GPSTrackWindow :=
  ⟨size, List.replicate size 0, List.replicate size 0, List.replicate size 0, 0, 0⟩

def push (g : GPSTrackWindow) (lat lon alt : ℚ) : GPSTrackWindow :=
  { g with
    lats := g.lats.set g.index lat
    lons := g.lons.set g.index lon
    alts := g.alts.set g.index alt
    index := (g.index + 1) % g.size
    count := min (g.count + 1) g.size }

/-- Method get_last: the point before the most recent write.  Python
computes (index - 2) % size on signed integers; for index < size this
equals (index + 2 * size - 2) % size. -/
def getLast (g : GPSTrackWindow) : Option (ℚ × ℚ × ℚ) :=
  if g.count < 2 then none
  else
    let p := (g.index + 2 * g.size - 2) % g.size
    some (g.lats.getD p 0, g.lons.getD p 0, g.alts.getD p 0)

end GPSTrackWindow

/-! ## OutlierDetector (src/backend/maindata.py lines 109-466) -/

/-- Dataclass OutlierConfig with its default thresholds. -/
structure OutlierConfig where
  window_size : ℕ := 50
  z_score_threshold : ℚ := 5
  voltage_min : ℚ := 35
  voltage_max : ℚ := 60
  current_min : ℚ := -10
  current_max : ℚ := 35
  power_min : ℚ := -500
  power_max : ℚ := 2500
  electrical_jump_pct : ℚ := 1/2
  stuck_sensor_count : ℕ := 15
  accel_magnitude_max : ℚ := 80
  gyro_rate_max : ℚ := 1000
  altitude_min : ℚ := -500
  altitude_max : ℚ := 10000
  gps_speed_distance_ratio : ℚ := 20
  gps_impossible_speed : ℚ := 500
  altitude_rate_max : ℚ := 50
  track_coherence_mad_mult : ℚ := 10
  speed_max : ℚ := 50
  speed_impossible_accel : ℚ := 50
  sample_interval : ℚ := 1/5

def defaultConfig : OutlierConfig := {}

/-- Enum OutlierSeverity. -/
inductive Severity where
  | info
  | warning
  | critical
  deriving Repr, DecidableEq

/-- Enum OutlierReason. -/
inductive Reason where
  | zScoreExceeded
  | absoluteBound
  | suddenJump
  | stuckSensor
  | magnitudeExceeded
  | rateOfChange
  | crossValidationFailed
  | gpsSpeedMismatch
  | impossibleSpeed
  | trackDeviation
  | altitudeRate
  | negativeValue
  | nonMonotonic
  | implausibleIncrease
  deriving Repr, DecidableEq

/-- Telemetry input sample: a parsed message dict.  Only the numeric
fields the modelled code reads are included; a missing dict key is
none. -/
structure SampleIn where
  speed_ms : Option ℚ := none
  voltage_v : Option ℚ := none
  current_a : Option ℚ := none
  power_w : Option ℚ := none
  energy_j : Option ℚ := none
  distance_m : Option ℚ := none
  latitude : Option ℚ := none
  longitude : Option ℚ := none
  altitude : Option ℚ := none
  gyro_x : Option ℚ := none
  gyro_y : Option ℚ := none
  gyro_z : Option ℚ := none
  accel_x : Option ℚ := none
  accel_y : Option ℚ := none
  accel_z : Option ℚ := none
  total_acceleration : Option ℚ := none
  message_id : Option ℚ := none
  uptime_seconds : Option ℚ := none
  throttle_pct : Option ℚ := none
  brake_pct : Option ℚ := none
  throttle : Option ℚ := none
  brake : Option ℚ := none

/-- Class attribute ROLLING_FIELDS of OutlierDetector. -/
def rollingFields : List String :=
  ["voltage_v", "current_a", "power_w", "gyro_x", "gyro_y", "gyro_z",
   "accel_x", "accel_y", "accel_z", "speed_ms"]

/-- Class attribute CRITICAL_FIELDS of OutlierDetector. -/
def criticalFields : List String := ["voltage_v", "current_a", "power_w"]

/-- Dict access data[field] for the rolling fields. -/
def SampleIn.getField (d : SampleIn) : String → Option ℚ
  | "voltage_v" => d.voltage_v
  | "current_a" => d.current_a
  | "power_w" => d.power_w
  | "gyro_x" => d.gyro_x
  | "gyro_y" => d.gyro_y
  | "gyro_z" => d.gyro_z
  | "accel_x" => d.accel_x
  | "accel_y" => d.accel_y
  | "accel_z" => d.accel_z
  | "speed_ms" => d.speed_ms
  | _ => none

/-- Python dict lookup on an association list. -/
def getKey {β : Type} (l : List (String × β)) (k : String) : Option β :=
  match l with
  | [] => none
  | (k0, v) :: t => if k0 = k then some v else getKey t k

/-- In-place update of a Python dict modelled as an association list:
replace the value at an existing key, else append the new entry. -/
def setKey {β : Type} (l : List (String × β)) (k : String) (v : β) : List (String × β) :=
  match l with
  | [] => [(k, v)]
  | (k0, v0) :: t => if k0 = k then (k, v) :: t else (k0, v0) :: setKey t k v

/-- Update of a Python dict modelled as a total function with a default. -/
def upd {β : Type} (f : String → β) (k : String) (v : β) : String → β :=
  fun x => if x = k then v else f x

/-- Python set.add on a duplicate-free list (order is irrelevant to the
modelled code, which only uses membership and cardinality). -/
def addFlag (f : String) (l : List String) : List String :=
  if f ∈ l then l else l ++ [f]

/-- The three per-sample accumulators of OutlierDetector.detect:
flagged_fields, confidence, reasons. -/
structure Acc where
  flagged : List String
  confidence : List (String × ℚ)
  reasons : List (String × Reason)
  deriving Repr, DecidableEq

/-- The common mutation pattern of every detection site:
flagged.add(f); confidence[f] = c; reasons[f] = r. -/
def Acc.flag (a : Acc) (f : String) (c : ℚ) (r : Reason) : Acc :=
  ⟨addFlag f a.flagged, setKey a.confidence f c, setKey a.reasons f r⟩

/-- Mutable state of an OutlierDetector across samples.  The stats
dictionary (message counters and wall-clock detection times) never
influences detection and is omitted. -/
structure DetState where
  windows : String → RollingWindow
  gpsTrack : GPSTrackWindow
  lastEnergy : Option ℚ
  lastDistance : Option ℚ
  stuckCounters : String → ℕ
  lastValues : String → Option ℚ

/-- Constructor state of OutlierDetector. -/
def DetState.init (cfg : OutlierConfig) : DetState :=
  ⟨fun _ => RollingWindow.init cfg.window_size, GPSTrackWindow.init 20,
   none, none, fun _ => 0, fun _ => none⟩

/-- Voltage block of _detect_electrical: absolute bounds, then (at 10
or more window samples) z-score and sudden-jump checks. -/
def voltageCheck (cfg : OutlierConfig) (sqrtF : ℚ → ℚ)
    (win : String → RollingWindow) (d : SampleIn) (a : Acc) : Acc :=
  match d.voltage_v with
  | none => a
  | some v =>
    let w := win "voltage_v"
    if v < cfg.voltage_min ∨ cfg.voltage_max < v then
      a.flag "voltage_v" 1 .absoluteBound
    else if 10 ≤ w.count then
      let μ := w.mean
      let σ := RollingWindow.std sqrtF w
      let a1 :=
        if 0 < σ ∧ cfg.z_score_threshold < pyAbs (v - μ) / σ then
          a.flag "voltage_v" (min 1 (pyAbs (v - μ) / σ / (cfg.z_score_threshold * 2))) .zScoreExceeded
        else a
      if 0 < μ ∧ cfg.electrical_jump_pct < pyAbs (v - μ) / μ ∧ "voltage_v" ∉ a1.flagged then
        a1.flag "voltage_v" (7/10) .suddenJump
      else a1
    else a

/-- Current block of _detect_electrical: absolute bounds, then z-score
(no sudden-jump check exists for current in the source). -/
def currentCheck (cfg : OutlierConfig) (sqrtF : ℚ → ℚ)
    (win : String → RollingWindow) (d : SampleIn) (a : Acc) : Acc :=
  match d.current_a with
  | none => a
  | some c =>
    let w := win "current_a"
    if c < cfg.current_min ∨ cfg.current_max < c then
      a.flag "current_a" 1 .absoluteBound
    else if 10 ≤ w.count then
      let μ := w.mean
      let σ := RollingWindow.std sqrtF w
      if 0 < σ ∧ cfg.z_score_threshold < pyAbs (c - μ) / σ then
        a.flag "current_a" (min 1 (pyAbs (c - μ) / σ / (cfg.z_score_threshold * 2))) .zScoreExceeded
      else a
    else a

/-- Power block of _detect_electrical: absolute bounds only. -/
def powerCheck (cfg : OutlierConfig) (d : SampleIn) (a : Acc) : Acc :=
  match d.power_w with
  | none => a
  | some p =>
    if p < cfg.power_min ∨ cfg.power_max < p then
      a.flag "power_w" 1 .absoluteBound
    else a

/-- Method _detect_electrical (backend variant: the sudden-jump branch
exists only for voltage_v; current_a has bounds and z-score, power_w
has bounds only). -/
def detectElectrical (cfg : OutlierConfig) (sqrtF : ℚ → ℚ)
    (win : String → RollingWindow) (d : SampleIn) (a : Acc) : Acc :=
  powerCheck cfg d (currentCheck cfg sqrtF win d (voltageCheck cfg sqrtF win d a))

/-- Gyro rate-of-change check for one gyro field (loop body in
_detect_imu). -/
def gyroCheck (cfg : OutlierConfig) (win : String → RollingWindow)
    (d : SampleIn) (a : Acc) (f : String) : Acc :=
  match d.getField f with
  | none => a
  | some v =>
    let w := win f
    if 0 < w.count then
      match (w.lastN 1).head? with
      | none => a
      | some lv =>
        let rate := pyAbs (v - lv)
        if cfg.gyro_rate_max < rate then
          a.flag f (min 1 (rate / (cfg.gyro_rate_max * 2))) .rateOfChange
        else a
    else a

/-- Accelerometer magnitude block of _detect_imu.  Python
max(..., key=...) keeps the first item on ties. -/
def magCheck (cfg : OutlierConfig) (sqrtF : ℚ → ℚ) (d : SampleIn) (a : Acc) : Acc :=
  let ax := d.accel_x.getD 0
  let ay := d.accel_y.getD 0
  let az := d.accel_z.getD 0
  if d.accel_x.isSome ∨ d.accel_y.isSome ∨ d.accel_z.isSome then
    let magnitude := sqrtF (ax ^ 2 + ay ^ 2 + az ^ 2)
    if cfg.accel_magnitude_max < magnitude then
      let p1 := ("accel_x", pyAbs ax)
      let p2 := if p1.2 < pyAbs ay then ("accel_y", pyAbs ay) else p1
      let p3 := if p2.2 < pyAbs az then ("accel_z", pyAbs az) else p2
      a.flag p3.1 (min 1 (magnitude / cfg.accel_magnitude_max)) .magnitudeExceeded
    else a
  else a

/-- Method _detect_imu (backend variant, which has no cross-validation
check). -/
def detectIMU (cfg : OutlierConfig) (sqrtF : ℚ → ℚ)
    (win : String → RollingWindow) (d : SampleIn) (a : Acc) : Acc :=
  let a := magCheck cfg sqrtF d a
  let a := gyroCheck cfg win d a "gyro_x"
  let a := gyroCheck cfg win d a "gyro_y"
  gyroCheck cfg win d a "gyro_z"

/-- Absolute-bound block of _detect_gps (latitude, longitude,
altitude). -/
def gpsBoundsCheck (cfg : OutlierConfig) (lat lon alt : ℚ) (a : Acc) : Acc :=
  let a := if ¬(-90 ≤ lat ∧ lat ≤ 90) then a.flag "latitude" 1 .absoluteBound else a
  let a := if ¬(-180 ≤ lon ∧ lon ≤ 180) then a.flag "longitude" 1 .absoluteBound else a
  if alt < cfg.altitude_min ∨ cfg.altitude_max < alt then
    a.flag "altitude" 1 .absoluteBound
  else a

/-- Movement block of _detect_gps against the previous track point:
speed-distance consistency, impossible GPS speed, altitude rate. -/
def gpsMotionCheck (cfg : OutlierConfig) (sqrtF : ℚ → ℚ)
    (lat lon alt speed plat plon palt : ℚ) (a : Acc) : Acc :=
  let dlat := lat - plat
  let dlon := lon - plon
  let distM := sqrtF ((dlat * 111000) ^ 2 + (dlon * 78000) ^ 2)
  let dt := cfg.sample_interval
  let expected := speed * dt
  let a :=
    if 0 < expected ∧ cfg.gps_speed_distance_ratio < distM / expected then
      a.flag "latitude"
        (min 1 ((distM / expected) / (cfg.gps_speed_distance_ratio * 2))) .gpsSpeedMismatch
    else a
  let a :=
    if cfg.gps_impossible_speed < distM / dt ∧ "latitude" ∉ a.flagged then
      a.flag "latitude"
        (min 1 ((distM / dt) / (cfg.gps_impossible_speed * 2))) .impossibleSpeed
    else a
  if cfg.altitude_rate_max < pyAbs (alt - palt) ∧ "altitude" ∉ a.flagged then
    a.flag "altitude" (min 1 (pyAbs (alt - palt) / (cfg.altitude_rate_max * 2))) .altitudeRate
  else a

/-- Method _detect_gps.  Also returns the updated GPS track (the method
pushes the new point at the end). -/
def detectGPS (cfg : OutlierConfig) (sqrtF : ℚ → ℚ)
    (track : GPSTrackWindow) (d : SampleIn) (a : Acc) : Acc × GPSTrackWindow :=
  match d.latitude, d.longitude with
  | some lat, some lon =>
    let alt := d.altitude.getD 0
    let speed := d.speed_ms.getD 0
    let a := gpsBoundsCheck cfg lat lon alt a
    let a :=
      match track.getLast with
      | none => a
      | some (plat, plon, palt) => gpsMotionCheck cfg sqrtF lat lon alt speed plat plon palt a
    (a, track.push lat lon alt)
  | _, _ => (a, track)

/-- Method _detect_speed. -/
def detectSpeed (cfg : OutlierConfig) (win : String → RollingWindow)
    (d : SampleIn) (a : Acc) : Acc :=
  match d.speed_ms with
  | none => a
  | some s =>
    if s < 0 then a.flag "speed_ms" 1 .negativeValue
    else if cfg.speed_max < s then
      a.flag "speed_ms" (min 1 (s / (cfg.speed_max * (3/2)))) .absoluteBound
    else
      let w := win "speed_ms"
      if 0 < w.count then
        match (w.lastN 1).head? with
        | none => a
        | some lv =>
          let accel := pyAbs (s - lv) / cfg.sample_interval
          if cfg.speed_impossible_accel < accel then
            a.flag "speed_ms" (min 1 (accel / (cfg.speed_impossible_accel * 2))) .rateOfChange
          else a
      else a

/-- Energy block of _detect_cumulative. -/
def energyCheck (d : SampleIn) (lastE : Option ℚ) (a : Acc) : Acc × Option ℚ :=
  match d.energy_j with
  | none => (a, lastE)
  | some e =>
    let a :=
      match lastE with
      | none => a
      | some le =>
        if e < le then a.flag "energy_j" 1 .nonMonotonic
        else if 50000 < e - le then a.flag "energy_j" (4/5) .implausibleIncrease
        else a
    (a, some e)

/-- Distance block of _detect_cumulative. -/
def distanceCheck (d : SampleIn) (lastD : Option ℚ) (a : Acc) : Acc × Option ℚ :=
  match d.distance_m with
  | none => (a, lastD)
  | some dist =>
    let a :=
      match lastD with
      | none => a
      | some ld =>
        if dist < ld then a.flag "distance_m" 1 .nonMonotonic
        else if 100 < dist - ld then a.flag "distance_m" (4/5) .implausibleIncrease
        else a
    (a, some dist)

/-- Method _detect_cumulative.  Also returns the updated last_energy
and last_distance memories. -/
def detectCumulative (d : SampleIn) (lastE lastD : Option ℚ) (a : Acc) :
    Acc × Option ℚ × Option ℚ :=
  let step := energyCheck d lastE a
  let step2 := distanceCheck d lastD step.1
  (step2.1, step.2, step2.2)

/-- Loop body of _detect_stuck_sensors for one field. -/
def stuckStep (cfg : OutlierConfig) (d : SampleIn)
    (st : Acc × (String → ℕ) × (String → Option ℚ)) (f : String) :
    Acc × (String → ℕ) × (String → Option ℚ) :=
  match d.getField f with
  | none => st
  | some val =>
    let a := st.1
    let cnt := st.2.1
    let lv := st.2.2
    if lv f = some val then
      let c := cnt f + 1
      let a :=
        if cfg.stuck_sensor_count ≤ c ∧ f ∉ a.flagged then
          a.flag f (min 1 ((c : ℚ) / ((cfg.stuck_sensor_count : ℚ) * 2))) .stuckSensor
        else a
      (a, upd cnt f c, upd lv f (some val))
    else
      (a, upd cnt f 0, upd lv f (some val))

/-- Method _detect_stuck_sensors. -/
def detectStuck (cfg : OutlierConfig) (d : SampleIn)
    (cnt : String → ℕ) (lv : String → Option ℚ) (a : Acc) :
    Acc × (String → ℕ) × (String → Option ℚ) :=
  rollingFields.foldl (stuckStep cfg d) (a, cnt, lv)

/-- Method _update_windows. -/
def updateWindows (win : String → RollingWindow) (d : SampleIn) :
    String → RollingWindow :=
  rollingFields.foldl
    (fun w f =>
      match d.getField f with
      | some v => upd w f ((w f).push v)
      | none => w) win

/-- Severity assignment at the end of detect (lines 311-317), evaluated
on a nonempty flag set. -/
def detSeverity (a : Acc) : Severity :=
  if a.flagged.any (fun f => decide (f ∈ criticalFields)) then .critical
  else if 3 ≤ a.flagged.length then .warning
  else if a.confidence.any (fun p => decide ((9 : ℚ)/10 < p.2)) then .warning
  else .info

/-- Result dict of detect when at least one field was flagged. -/
structure DetResult where
  flagged_fields : List String
  confidence : List (String × ℚ)
  reasons : List (String × Reason)
  severity : Severity
  deriving Repr, DecidableEq

/-- The six detection passes of detect followed by the window update,
returning the final accumulator and the successor state. -/
def runChecks (cfg : OutlierConfig) (sqrtF : ℚ → ℚ) (st : DetState)
    (d : SampleIn) : Acc × DetState :=
  let a1 := detectElectrical cfg sqrtF st.windows d ⟨[], [], []⟩
  let a2 := detectIMU cfg sqrtF st.windows d a1
  let gps := detectGPS cfg sqrtF st.gpsTrack d a2
  let a4 := detectSpeed cfg st.windows d gps.1
  let cum := detectCumulative d st.lastEnergy st.lastDistance a4
  let stk := detectStuck cfg d st.stuckCounters st.lastValues cum.1
  let win := updateWindows st.windows d
  (stk.1, ⟨win, gps.2, cum.2.1, cum.2.2, stk.2.1, stk.2.2⟩)

/-- Method detect of OutlierDetector: runs the checks, assigns the
severity, and returns the outlier record (none when nothing was
flagged) together with the successor detector state. -/
def detect (cfg : OutlierConfig) (sqrtF : ℚ → ℚ) (st : DetState)
    (d : SampleIn) : Option DetResult × DetState :=
  let r := runChecks cfg sqrtF st d
  let a := r.1
  if a.flagged = [] then (none, r.2)
  else (some ⟨a.flagged, a.confidence, a.reasons, detSeverity a⟩, r.2)

/-! ## Normalizer (src/backend/maindata.py, TelemetryBridgeWithDB._normalize_telemetry_data, lines 2062-2149)

The session_id / session_name stamping and the timestamp coercion act
on string fields and wall-clock time; they are independent of the
numeric normalization and are omitted.  The telemetry-calculator merge
(out.update(calculated)) only adds derived-metric keys, all disjoint
from the fields below, so it cannot alter them. -/

/-- Fully normalized sample: every default field present. -/
structure Sample where
  speed_ms : ℚ
  voltage_v : ℚ
  current_a : ℚ
  power_w : ℚ
  energy_j : ℚ
  distance_m : ℚ
  latitude : ℚ
  longitude : ℚ
  altitude : ℚ
  gyro_x : ℚ
  gyro_y : ℚ
  gyro_z : ℚ
  accel_x : ℚ
  accel_y : ℚ
  accel_z : ℚ
  total_acceleration : ℚ
  message_id : ℚ
  uptime_seconds : ℚ
  throttle_pct : ℚ
  brake_pct : ℚ
  throttle : ℚ
  brake : ℚ
  data_source : String
  outliers : Option DetResult

/-- Inner helper _clamp01 of the normalizer. -/
def clamp01 (v : ℚ) : ℚ := max 0 (min 1 v)

/-- Data source of the input message, when the parsed dict carried one.
Kept outside SampleIn so the numeric detector interface stays as in the
source. -/
structure RawMsg where
  fields : SampleIn
  data_source : Option String := none

/-- Driver-input reconciliation block of _normalize_telemetry_data
(the four conditional assignments, in source order), acting on the
post-default values of throttle_pct, brake_pct, throttle, brake. -/
def syncDriverInputs (tp0 bp0 th0 br0 : ℚ) : ℚ × ℚ × ℚ × ℚ :=
  let tp1 := if tp0 = 0 ∧ th0 ≠ 0 then pyRound 2 (clamp01 th0 * 100) else tp0
  let bp1 := if bp0 = 0 ∧ br0 ≠ 0 then pyRound 2 (clamp01 br0 * 100) else bp0
  let th1 := if th0 = 0 ∧ tp1 ≠ 0 then pyRound 3 (clamp01 (tp1 / 100)) else th0
  let br1 := if br0 = 0 ∧ bp1 ≠ 0 then pyRound 3 (clamp01 (bp1 / 100)) else br0
  (tp1, bp1, th1, br1)

/-- Default-filling and derived-field block of _normalize_telemetry_data:
setdefault for every default field, power_w and total_acceleration
recomputation (Python truthiness: they trigger on a missing key or a
zero value alike), then driver-input reconciliation.  The outliers
field is attached afterwards. -/
def powerOf (d : SampleIn) : ℚ :=
  let power0 := d.power_w.getD 0
  if power0 = 0 then d.voltage_v.getD 0 * d.current_a.getD 0 else power0

def totalAccelOf (sqrtF : ℚ → ℚ) (d : SampleIn) : ℚ :=
  let ta0 := d.total_acceleration.getD 0
  if ta0 = 0 then
    sqrtF (d.accel_x.getD 0 ^ 2 + d.accel_y.getD 0 ^ 2 + d.accel_z.getD 0 ^ 2)
  else ta0

def dataSourceOf (mockMode : Bool) (msg : RawMsg) : String :=
  msg.data_source.getD (if mockMode then "MOCK_GENERATOR" else "ESP32_REAL")

def normalizeFields (sqrtF : ℚ → ℚ) (mockMode : Bool) (msg : RawMsg) : Sample :=
  let d := msg.fields
  let sync := syncDriverInputs (d.throttle_pct.getD 0) (d.brake_pct.getD 0)
    (d.throttle.getD 0) (d.brake.getD 0)
  ⟨d.speed_ms.getD 0, d.voltage_v.getD 0, d.current_a.getD 0,
   powerOf d,
   d.energy_j.getD 0, d.distance_m.getD 0, d.latitude.getD 0, d.longitude.getD 0,
   d.altitude.getD 0, d.gyro_x.getD 0, d.gyro_y.getD 0, d.gyro_z.getD 0,
   d.accel_x.getD 0, d.accel_y.getD 0, d.accel_z.getD 0,
   totalAccelOf sqrtF d,
   d.message_id.getD 0, d.uptime_seconds.getD 0,
   sync.1, sync.2.1, sync.2.2.1, sync.2.2.2,
   dataSourceOf mockMode msg,
   none⟩

/-- View of a fully normalized sample as the dict handed to the
detector: every key present. -/
def Sample.toDetectorInput (s : Sample) : SampleIn :=
  { speed_ms := some s.speed_ms, voltage_v := some s.voltage_v,
    current_a := some s.current_a, power_w := some s.power_w,
    energy_j := some s.energy_j, distance_m := some s.distance_m,
    latitude := some s.latitude, longitude := some s.longitude,
    altitude := some s.altitude, gyro_x := some s.gyro_x,
    gyro_y := some s.gyro_y, gyro_z := some s.gyro_z,
    accel_x := some s.accel_x, accel_y := some s.accel_y,
    accel_z := some s.accel_z, total_acceleration := some s.total_acceleration,
    message_id := some s.message_id, uptime_seconds := some s.uptime_seconds,
    throttle_pct := some s.throttle_pct, brake_pct := some s.brake_pct,
    throttle := some s.throttle, brake := some s.brake }

/-- Method _normalize_telemetry_data.  Takes the detector state of the
bridge, returns the canonical sample and the successor detector state. -/
def normalize (cfg : OutlierConfig) (sqrtF : ℚ → ℚ) (mockMode : Bool)
    (st : DetState) (msg : RawMsg) : Sample × DetState :=
  let s := normalizeFields sqrtF mockMode msg
  let det := detect cfg sqrtF st s.toDetectorInput
  ({ s with outliers := det.1 }, det.2)

/-! ## ConnectionHealth and reconnect policy (src/backend/maindata.py
lines 1423-1459 and 1934-1971) -/

def RECONNECT_MAX_ATTEMPTS : ℕ := 10
def RECONNECT_BASE_DELAY : ℚ := 1
def RETRY_BACKOFF_MAX : ℚ := 60

structure ConnectionHealth where
  is_connected : Bool := false
  last_message_time : ℚ := 0
  last_health_check : ℚ := 0
  reconnect_attempts : ℕ := 0
  total_reconnects : ℕ := 0
  messages_since_connect : ℕ := 0
  error_count : ℕ := 0
  error_rate : ℚ := 0
  last_error_time : ℚ := 0

/-- Method record_error (now is the monotonic-clock reading). -/
def ConnectionHealth.recordError (h : ConnectionHealth) (now : ℚ) : ConnectionHealth :=
  let rate := if 60 < now - h.last_error_time then 1 else min 100 (h.error_rate + 1)
  { h with error_count := h.error_count + 1, error_rate := rate, last_error_time := now }

/-- Method reset_for_reconnect. -/
def ConnectionHealth.resetForReconnect (h : ConnectionHealth) : ConnectionHealth :=
  { h with is_connected := false,
           reconnect_attempts := h.reconnect_attempts + 1,
           total_reconnects := h.total_reconnects + 1,
           messages_since_connect := 0 }

/-- Method is_stale. -/
def ConnectionHealth.isStale (h : ConnectionHealth) (now timeout : ℚ) : Bool :=
  if h.last_message_time = 0 then false else decide (timeout < now - h.last_message_time)

inductive ReconnectOutcome where
  | gaveUp
  | failed (delay : ℚ)
  | succeeded (delay : ℚ)
  deriving Repr, DecidableEq

/-- Method _reconnect_esp32 (and the structurally identical
_reconnect_dashboard): fail fast at the attempt cap, otherwise
reset_for_reconnect, sleep min(base * 2 ** attempts, backoff max), then
either succeed (connection established: is_connected set, attempts
zeroed) or fail (record_error).  connectOk abstracts the outcome of the
transport connect; now is the monotonic clock at the error. -/
def reconnectChannel (h : ConnectionHealth) (connectOk : Bool) (now : ℚ) :
    ReconnectOutcome × ConnectionHealth :=
  if RECONNECT_MAX_ATTEMPTS ≤ h.reconnect_attempts then (.gaveUp, h)
  else
    let h1 := h.resetForReconnect
    let delay := min (RECONNECT_BASE_DELAY * 2 ^ h1.reconnect_attempts) RETRY_BACKOFF_MAX
    if connectOk then
      (.succeeded delay, { h1 with is_connected := true, reconnect_attempts := 0 })
    else
      (.failed delay, h1.recordError now)

/-- Delays slept across n consecutive failed reconnect attempts,
stopping early if the policy gives up. -/
def failDelays : ℕ → ConnectionHealth → List ℚ
  | 0, _ => []
  | n + 1, h =>
    match reconnectChannel h false 0 with
    | (.failed d, h2) => d :: failDelays n h2
    | _ => []

/-! ## RateLimitedPublisher (src/backend/maindata.py lines 1466-1623)

Token refill depends on the monotonic clock; the elapsed time since the
last refill is passed explicitly.  The external channel.publish await
is abstracted by the boolean pubOk (its success/raise outcome).
Messages are abstracted to numeric identifiers. -/

structure PubState where
  rate_limit : ℚ
  burst_capacity : ℚ
  max_queue_size : ℕ
  tokens : ℚ
  queue : List ℕ
  queue_depth : ℕ
  burst_events : ℕ
  messages_delayed : ℕ
  messages_dropped : ℕ
  messages_published : ℕ
  drain_cycles : ℕ

/-- Constructor of RateLimitedPublisher: the bucket starts full. -/
def mkPublisher (rate burst : ℚ) (maxq : ℕ) : PubState :=
  ⟨rate, burst, maxq, burst, [], 0, 0, 0, 0, 0, 0⟩

/-- Method _refill_tokens. -/
def refillTokens (p : PubState) (elapsed : ℚ) : PubState :=
  { p with tokens := min p.burst_capacity (p.tokens + elapsed * p.rate_limit) }

/-- Method _try_consume_token. -/
def tryConsumeToken (p : PubState) (elapsed : ℚ) : Bool × PubState :=
  let p := refillTokens p elapsed
  if 1 ≤ p.tokens then (true, { p with tokens := p.tokens - 1 })
  else (false, p)

/-- Method queue_message.  queue.Queue(maxsize) with maxsize > 0 raises
queue.Full on put_nowait exactly when qsize() >= maxsize. -/
def queueMessage (p : PubState) (m : ℕ) : Bool × PubState :=
  if p.queue.length < p.max_queue_size then
    let q := p.queue ++ [m]
    (true, { p with queue := q,
                    messages_delayed := p.messages_delayed + 1,
                    queue_depth := q.length })
  else
    (false, { p with messages_dropped := p.messages_dropped + 1 })

/-- Method publish. -/
def publish (p : PubState) (elapsed : ℚ) (pubOk forceQueue : Bool) (m : ℕ) :
    Bool × PubState :=
  if forceQueue then queueMessage p m
  else
    let t := tryConsumeToken p elapsed
    if t.1 then
      if pubOk then
        (true, { t.2 with messages_published := t.2.messages_published + 1 })
      else queueMessage t.2 m
    else
      queueMessage { t.2 with burst_events := t.2.burst_events + 1 } m

/-! ## LocalJournal (src/backend/maindata.py lines 1630-1680)

The journal file is modelled as its list of lines.  json.dumps emits a
single line (newlines inside strings are escaped), so append writes one
line.  JSON values are modelled with integer numbers; strings carry the
escapes the encoder emits.  dumpsVal mirrors json.dumps with its
default separators and ensure_ascii=False; loads mirrors json.loads on
that sublanguage. -/

inductive JVal where
  | null
  | bool (b : Bool)
  | num (n : ℤ)
  | str (s : String)
  | arr (xs : List JVal)
  | obj (fields : List (String × JVal))

instance : Inhabited JVal := ⟨JVal.null⟩

/-- String escaping of json.dumps for the common escapes. -/
def escChar (c : Char) : String :=
  if c = '"' then "\\\""
  else if c = '\\' then "\\\\"
  else if c = '\n' then "\\n"
  else if c = '\t' then "\\t"
  else if c = '\r' then "\\r"
  else String.singleton c

def escString (s : String) : String :=
  String.join (s.data.map escChar)

mutual

/-- json.dumps with default separators (", " and ": "). -/
def dumpsVal : JVal → String
  | .null => "null"
  | .bool true => "true"
  | .bool false => "false"
  | .num n => toString n
  | .str s => "\"" ++ escString s ++ "\""
  | .arr xs => "[" ++ dumpsArr xs ++ "]"
  | .obj fs => "\x7b" ++ dumpsObj fs ++ "\x7d"

def dumpsArr : List JVal → String
  | [] => ""
  | [x] => dumpsVal x
  | x :: y :: t => dumpsVal x ++ ", " ++ dumpsArr (y :: t)

def dumpsObj : List (String × JVal) → String
  | [] => ""
  | [(k, v)] => "\"" ++ escString k ++ "\": " ++ dumpsVal v
  | (k, v) :: p :: t =>
    "\"" ++ escString k ++ "\": " ++ dumpsVal v ++ ", " ++ dumpsObj (p :: t)

end

/-- JSON whitespace. -/
def isJsonWs (c : Char) : Bool :=
  c = ' ' ∨ c = '\t' ∨ c = '\n' ∨ c = '\r'

def skipWs (cs : List Char) : List Char :=
  cs.dropWhile isJsonWs

/-- Decoding of a string escape character. -/
def decodeEsc (c : Char) : Option Char :=
  if c = '"' then some '"'
  else if c = '\\' then some '\\'
  else if c = '/' then some '/'
  else if c = 'n' then some '\n'
  else if c = 't' then some '\t'
  else if c = 'r' then some '\r'
  else if c = 'b' then some (Char.ofNat 8)
  else if c = 'f' then some (Char.ofNat 12)
  else none

/-- Body of a JSON string literal after the opening quote. -/
def parseStrAux : List Char → Option (List Char × List Char)
  | [] => none
  | c :: rest =>
    if c = '"' then some ([], rest)
    else if c = '\\' then
      match rest with
      | [] => none
      | e :: rest2 =>
        match decodeEsc e with
        | none => none
        | some ch =>
          match parseStrAux rest2 with
          | none => none
          | some (s, r) => some (ch :: s, r)
    else
      match parseStrAux rest with
      | none => none
      | some (s, r) => some (c :: s, r)

def digitVal (c : Char) : ℕ := c.toNat - '0'.toNat

/-- Digit run of an integer literal. -/
def parseDigits : List Char → ℕ → Option (ℕ × List Char)
  | [], acc => some (acc, [])
  | c :: rest, acc =>
    if c.isDigit then parseDigits rest (acc * 10 + digitVal c)
    else some (acc, c :: rest)

/-- Integer literal (json numbers restricted to the integers the model
serializes; a fraction or exponent makes the parse fail). -/
def parseNum (cs : List Char) : Option (ℤ × List Char) :=
  let core : List Char → Option (ℤ × List Char) := fun l =>
    match l with
    | c :: rest =>
      if c.isDigit then
        match parseDigits rest (digitVal c) with
        | some (n, r) =>
          match r with
          | d :: _ => if d = '.' ∨ d = 'e' ∨ d = 'E' then none else some ((n : ℤ), r)
          | [] => some ((n : ℤ), r)
        | none => none
      else none
    | [] => none
  match cs with
  | '-' :: rest =>
    match core rest with
    | some (n, r) => some (-n, r)
    | none => none
  | _ => core cs

mutual

/-- Recursive-descent json.loads on the serialized sublanguage, with a
fuel bound for termination. -/
def parseVal : ℕ → List Char → Option (JVal × List Char)
  | 0, _ => none
  | fuel + 1, cs =>
    match skipWs cs with
    | [] => none
    | c :: rest =>
      if c = 'n' then
        match rest with
        | 'u' :: 'l' :: 'l' :: r => some (.null, r)
        | _ => none
      else if c = 't' then
        match rest with
        | 'r' :: 'u' :: 'e' :: r => some (.bool true, r)
        | _ => none
      else if c = 'f' then
        match rest with
        | 'a' :: 'l' :: 's' :: 'e' :: r => some (.bool false, r)
        | _ => none
      else if c = '"' then
        match parseStrAux rest with
        | some (s, r) => some (.str (String.mk s), r)
        | none => none
      else if c = '[' then
        match skipWs rest with
        | ']' :: r => some (.arr [], r)
        | _ =>
          match parseElems fuel rest with
          | some (xs, r) => some (.arr xs, r)
          | none => none
      else if c = '\x7b' then
        match skipWs rest with
        | '\x7d' :: r => some (.obj [], r)
        | _ =>
          match parseMembers fuel rest with
          | some (fs, r) => some (.obj fs, r)
          | none => none
      else
        match parseNum (c :: rest) with
        | some (n, r) => some (.num n, r)
        | none => none

/-- Comma-separated array elements up to the closing bracket. -/
def parseElems : ℕ → List Char → Option (List JVal × List Char)
  | 0, _ => none
  | fuel + 1, cs =>
    match parseVal fuel cs with
    | none => none
    | some (v, r) =>
      match skipWs r with
      | ',' :: r2 =>
        match parseElems fuel r2 with
        | some (xs, r3) => some (v :: xs, r3)
        | none => none
      | ']' :: r2 => some ([v], r2)
      | _ => none

/-- Comma-separated object members up to the closing brace. -/
def parseMembers : ℕ → List Char → Option (List (String × JVal) × List Char)
  | 0, _ => none
  | fuel + 1, cs =>
    match skipWs cs with
    | '"' :: r =>
      match parseStrAux r with
      | none => none
      | some (k, r2) =>
        match skipWs r2 with
        | ':' :: r3 =>
          match parseVal fuel r3 with
          | none => none
          | some (v, r4) =>
            match skipWs r4 with
            | ',' :: r5 =>
              match parseMembers fuel r5 with
              | some (fs, r6) => some ((String.mk k, v) :: fs, r6)
              | none => none
            | '\x7d' :: r5 => some ([(String.mk k, v)], r5)
            | _ => none
        | _ => none
    | _ => none

end

/-- json.loads: a full parse with only trailing whitespace allowed. -/
def loads (s : String) : Option JVal :=
  match parseVal (s.length + 1) s.data with
  | some (v, rest) => if skipWs rest = [] then some v else none
  | none => none

/-- Python str.strip() whitespace (the ASCII part). -/
def isPyWs (c : Char) : Bool :=
  c = ' ' ∨ c = '\t' ∨ c = '\n' ∨ c = '\r' ∨ c = Char.ofNat 11 ∨ c = Char.ofNat 12

/-- Python line.strip(). -/
def pyStrip (s : String) : String :=
  String.mk (((s.data.dropWhile isPyWs).reverse.dropWhile isPyWs).reverse)

/-- Per-line step of iter_records: strip, skip blank lines, parse,
skip undecodable lines. -/
def lineToRec (line : String) : Option JVal :=
  let s := pyStrip line
  if s = "" then none else loads s

/-- Journal state: the lines of the ndjson file, in append order. -/
structure LocalJournal where
  file : List String
  deriving Repr, DecidableEq

def LocalJournal.empty : LocalJournal := ⟨[]⟩

/-- Method append: one json.dumps line per record. -/
def LocalJournal.append (j : LocalJournal) (rec : JVal) : LocalJournal :=
  ⟨j.file ++ [dumpsVal rec]⟩

def LocalJournal.appendAll (j : LocalJournal) (recs : List JVal) : LocalJournal :=
  recs.foldl LocalJournal.append j

/-- Method iter_records. -/
def LocalJournal.iterRecords (j : LocalJournal) : List JVal :=
  j.file.filterMap lineToRec

/-- Python rec.get(col, "") on a parsed record (appended records are
always dicts). -/
def getFieldJ : JVal → String → Option JVal
  | .obj fs, k => fs.lookup k
  | _, _ => none

/-- Row written for one record: the record value per column, or an
empty cell for a missing field. -/
def csvRow (field_order : List String) (rec : JVal) : List JVal :=
  field_order.map fun col => (getFieldJ rec col).getD (.str "")

/-- Method export_csv: the rows written (header first) and the returned
record count. -/
def LocalJournal.exportCSV (j : LocalJournal) (field_order : List String) :
    List (List JVal) × ℕ :=
  let rows := j.iterRecords.map (csvRow field_order)
  ((field_order.map .str) :: rows, rows.length)

/-! ## Specification-side predicates and run helpers -/

/-- Run the detector over a list of samples, keeping the state. -/
def detectFold (cfg : OutlierConfig) (sqrtF : ℚ → ℚ) (st : DetState)
    (ds : List SampleIn) : DetState :=
  ds.foldl (fun s d => (detect cfg sqrtF s d).2) st

/-- Severity rule exactly as clause 4.3 of the spec states it. -/
def specSeverity (flagged : List String) (confidence : List (String × ℚ)) : Severity :=
  if ∃ f ∈ flagged, f = "voltage_v" ∨ f = "current_a" ∨ f = "power_w" then .critical
  else if 3 ≤ flagged.length then .warning
  else if ∃ p ∈ confidence, (9 : ℚ)/10 < p.2 then .warning
  else .info

/-- Positivity of the config thresholds the detector divides by; the
default config satisfies all of them. -/
structure CfgValid (cfg : OutlierConfig) : Prop where
  zpos : 0 < cfg.z_score_threshold
  apos : 0 < cfg.accel_magnitude_max
  gpos : 0 < cfg.gyro_rate_max
  rpos : 0 < cfg.gps_speed_distance_ratio
  ipos : 0 < cfg.gps_impossible_speed
  altpos : 0 < cfg.altitude_rate_max
  spos : 0 < cfg.speed_max
  accpos : 0 < cfg.speed_impossible_accel
  stuckpos : 0 < cfg.stuck_sensor_count
  dtpos : 0 < cfg.sample_interval

/-- Nonnegativity of the square-root oracle on nonnegative arguments
(math.sqrt returns a nonnegative float wherever it returns). -/
def SqrtNonneg (sqrtF : ℚ → ℚ) : Prop := ∀ x : ℚ, 0 ≤ x → 0 ≤ sqrtF x

/-- Every flagged field carries a confidence entry in the unit interval
and a reason entry. -/
def AccWF (a : Acc) : Prop :=
  ∀ f ∈ a.flagged,
    (∃ c, getKey a.confidence f = some c ∧ 0 ≤ c ∧ c ≤ 1) ∧
    (∃ ρ, getKey a.reasons f = some ρ)

/-- A flagged key survives from accumulator a to b with its confidence
and reason entries intact. -/
def keyUntouched (g : String) (a b : Acc) : Prop :=
  g ∈ a.flagged →
    g ∈ b.flagged ∧ getKey b.confidence g = getKey a.confidence g ∧
      getKey b.reasons g = getKey a.reasons g

/-! ## Theorems -/

/-! ### C7: reconnect backoff -/

/-- Delays of a run of failed reconnects, for an arbitrary starting
attempt count. -/
theorem failDelays_formula (n : ℕ) :
    ∀ (h : ConnectionHealth), h.reconnect_attempts + n ≤ RECONNECT_MAX_ATTEMPTS →
      failDelays n h =
        (List.range n).map
          (fun i => min (RECONNECT_BASE_DELAY * 2 ^ (h.reconnect_attempts + i + 1)) RETRY_BACKOFF_MAX) := by
  induction n with
  | zero => intro h _; simp [failDelays]
  | succ k ih =>
    intro h hle
    have hlt : h.reconnect_attempts < RECONNECT_MAX_ATTEMPTS := by omega
    have hnot : ¬ RECONNECT_MAX_ATTEMPTS ≤ h.reconnect_attempts := by omega
    have hstep :
        reconnectChannel h false 0 =
          (.failed (min (RECONNECT_BASE_DELAY * 2 ^ (h.reconnect_attempts + 1)) RETRY_BACKOFF_MAX),
           (h.resetForReconnect).recordError 0) := by
      simp [reconnectChannel, hnot, ConnectionHealth.resetForReconnect]
    have hattempts :
        ((h.resetForReconnect).recordError 0).reconnect_attempts = h.reconnect_attempts + 1 := by
      simp [ConnectionHealth.resetForReconnect, ConnectionHealth.recordError]
    have ihh := ih ((h.resetForReconnect).recordError 0) (by omega)
    rw [hattempts] at ihh
    simp only [failDelays, hstep, ihh, List.range_succ_eq_map, List.map_cons, List.map_map]
    refine congrArg₂ List.cons ?_ ?_
    · norm_num
    · refine List.map_congr_left ?_
      intro i _
      have hx : h.reconnect_attempts + 1 + i + 1 = h.reconnect_attempts + (i + 1) + 1 := by omega
      simp [Function.comp, hx]

/-- Fail-fast at the attempt cap: no delay, no state change. -/
theorem reconnect_gives_up (h : ConnectionHealth) (ok : Bool) (now : ℚ)
    (hc : RECONNECT_MAX_ATTEMPTS ≤ h.reconnect_attempts) :
    reconnectChannel h ok now = (.gaveUp, h) := by
  simp [reconnectChannel, hc]

/-- Successful reconnect below the cap: the slept delay, the zeroed
attempt counter, and the bumped total_reconnects. -/
theorem reconnect_success (h : ConnectionHealth) (now : ℚ)
    (hc : h.reconnect_attempts < RECONNECT_MAX_ATTEMPTS) :
    (reconnectChannel h true now).1 =
        .succeeded (min (RECONNECT_BASE_DELAY * 2 ^ (h.reconnect_attempts + 1)) RETRY_BACKOFF_MAX) ∧
      (reconnectChannel h true now).2.reconnect_attempts = 0 ∧
      (reconnectChannel h true now).2.total_reconnects = h.total_reconnects + 1 ∧
      (reconnectChannel h true now).2.is_connected = true := by
  have hnot : ¬ RECONNECT_MAX_ATTEMPTS ≤ h.reconnect_attempts := by omega
  refine ⟨?_, ?_, ?_, ?_⟩ <;>
    simp [reconnectChannel, hnot, ConnectionHealth.resetForReconnect]

/-- C7 as stated is false: starting from zero attempts, the first sleep
is 2 * RECONNECT_BASE_DELAY, not RECONNECT_BASE_DELAY, because
reset_for_reconnect increments the attempt counter before the delay is
computed. -/
theorem C7_reconnect_delay_counterexample :
    failDelays 1 {} = [2] ∧ (2 : ℚ) ≠ RECONNECT_BASE_DELAY := by
  constructor
  · norm_num [failDelays, reconnectChannel, ConnectionHealth.resetForReconnect,
      ConnectionHealth.recordError, RECONNECT_MAX_ATTEMPTS, RECONNECT_BASE_DELAY,
      RETRY_BACKOFF_MAX, min_def]
  · intro hc
    exact absurd hc (by norm_num [RECONNECT_BASE_DELAY])

/-- C7 amended: starting from zero reconnect attempts, the sleep delays
before successive (failing) reconnect attempts form the geometric
sequence 2 * base, 4 * base, 8 * base, ... clipped at RETRY_BACKOFF_MAX
(the attempt counter is incremented before the delay is computed);
after RECONNECT_MAX_ATTEMPTS attempts the reconnect fails fast without
a further attempt; a successful reconnect below the cap zeroes
reconnect_attempts and increments total_reconnects. -/
theorem C7_reconnect_backoff :
    (∀ n : ℕ, n ≤ RECONNECT_MAX_ATTEMPTS →
        failDelays n {} =
          (List.range n).map (fun i => min (RECONNECT_BASE_DELAY * 2 ^ (i + 1)) RETRY_BACKOFF_MAX)) ∧
      (∀ (h : ConnectionHealth) (ok : Bool) (now : ℚ),
        RECONNECT_MAX_ATTEMPTS ≤ h.reconnect_attempts →
          reconnectChannel h ok now = (.gaveUp, h)) ∧
      (∀ (h : ConnectionHealth) (now : ℚ),
        h.reconnect_attempts < RECONNECT_MAX_ATTEMPTS →
          (reconnectChannel h true now).2.reconnect_attempts = 0 ∧
          (reconnectChannel h true now).2.total_reconnects = h.total_reconnects + 1) := by
  refine ⟨?_, ?_, ?_⟩
  · intro n hn
    have := failDelays_formula n ({} : ConnectionHealth) (by simpa using hn)
    simpa using this
  · intro h ok now hc
    exact reconnect_gives_up h ok now hc
  · intro h now hc
    exact ⟨(reconnect_success h now hc).2.1, (reconnect_success h now hc).2.2.1⟩

/-- Witness: the amended backoff claim evaluated on a concrete run of
three failed attempts, at the cap, and on a concrete success. -/
theorem C7_reconnect_backoff_witness :
    failDelays 3 {} = [2, 4, 8] ∧
      reconnectChannel { reconnect_attempts := 10 } true 0 =
        (.gaveUp, { reconnect_attempts := 10 }) ∧
      (reconnectChannel { reconnect_attempts := 4, total_reconnects := 7 } true 0).2.reconnect_attempts = 0 ∧
      (reconnectChannel { reconnect_attempts := 4, total_reconnects := 7 } true 0).2.total_reconnects = 8 := by
  refine ⟨?_, ?_, ?_, ?_⟩
  · have := C7_reconnect_backoff.1 3 (by decide)
    rw [this]
    norm_num [List.range_succ, RECONNECT_BASE_DELAY, RETRY_BACKOFF_MAX, min_def]
  · exact C7_reconnect_backoff.2.1 _ true 0 (by decide)
  · exact (C7_reconnect_backoff.2.2 { reconnect_attempts := 4, total_reconnects := 7 } 0
      (by decide)).1
  · exact (C7_reconnect_backoff.2.2 { reconnect_attempts := 4, total_reconnects := 7 } 0
      (by decide)).2

/-! ### C8: rate-limited publish -/

/-- Projections of _refill_tokens: only the token count changes. -/
@[simp] theorem refillTokens_queue (p : PubState) (e : ℚ) :
    (refillTokens p e).queue = p.queue := rfl

@[simp] theorem refillTokens_max_queue_size (p : PubState) (e : ℚ) :
    (refillTokens p e).max_queue_size = p.max_queue_size := rfl

@[simp] theorem refillTokens_messages_dropped (p : PubState) (e : ℚ) :
    (refillTokens p e).messages_dropped = p.messages_dropped := rfl

@[simp] theorem refillTokens_messages_delayed (p : PubState) (e : ℚ) :
    (refillTokens p e).messages_delayed = p.messages_delayed := rfl

@[simp] theorem refillTokens_messages_published (p : PubState) (e : ℚ) :
    (refillTokens p e).messages_published = p.messages_published := rfl

@[simp] theorem refillTokens_burst_events (p : PubState) (e : ℚ) :
    (refillTokens p e).burst_events = p.burst_events := rfl

@[simp] theorem refillTokens_queue_depth (p : PubState) (e : ℚ) :
    (refillTokens p e).queue_depth = p.queue_depth := rfl

/-- Case normal form of publish with forceQueue at its default False. -/
theorem publish_spec_aux (p : PubState) (e : ℚ) (pubOk : Bool) (m : ℕ) :
    publish p e pubOk false m =
      if 1 ≤ (refillTokens p e).tokens then
        if pubOk then
          (true, { refillTokens p e with
                   tokens := (refillTokens p e).tokens - 1
                   messages_published := p.messages_published + 1 })
        else queueMessage { refillTokens p e with tokens := (refillTokens p e).tokens - 1 } m
      else queueMessage { refillTokens p e with burst_events := p.burst_events + 1 } m := by
  cases pubOk <;> by_cases h : 1 ≤ (refillTokens p e).tokens <;>
    simp [publish, tryConsumeToken, h]

/-- Behaviour of queue_message on both sides of the capacity check. -/
theorem queueMessage_spec (st : PubState) (m : ℕ) :
    ((queueMessage st m).1 = false ↔ st.max_queue_size ≤ st.queue.length) ∧
    (st.queue.length < st.max_queue_size →
      queueMessage st m =
        (true, { st with queue := st.queue ++ [m]
                         messages_delayed := st.messages_delayed + 1
                         queue_depth := (st.queue ++ [m]).length })) ∧
    (st.max_queue_size ≤ st.queue.length →
      queueMessage st m = (false, { st with messages_dropped := st.messages_dropped + 1 })) := by
  by_cases h : st.queue.length < st.max_queue_size <;>
    (simp [queueMessage, h]; try omega)

/-- C8: publish(channel, event, msg) (forceQueue at its default False)
returns failure exactly when the message is dropped at a full overflow
queue; a consumed token with a successful send publishes immediately
and returns success; a send failure or a missing token enqueues and
returns success whenever the queue has room; a drop is counted. -/
theorem C8_publish_contract (p : PubState) (elapsed : ℚ) (pubOk : Bool) (m : ℕ) :
    ((publish p elapsed pubOk false m).1 = false ↔
      (p.max_queue_size ≤ p.queue.length ∧
        ¬(1 ≤ (refillTokens p elapsed).tokens ∧ pubOk = true))) ∧
    (1 ≤ (refillTokens p elapsed).tokens → pubOk = true →
      (publish p elapsed pubOk false m).1 = true ∧
      (publish p elapsed pubOk false m).2.tokens = (refillTokens p elapsed).tokens - 1 ∧
      (publish p elapsed pubOk false m).2.messages_published = p.messages_published + 1 ∧
      (publish p elapsed pubOk false m).2.queue = p.queue) ∧
    (1 ≤ (refillTokens p elapsed).tokens → pubOk = false →
      p.queue.length < p.max_queue_size →
      (publish p elapsed pubOk false m).1 = true ∧
      (publish p elapsed pubOk false m).2.queue = p.queue ++ [m]) ∧
    (¬ 1 ≤ (refillTokens p elapsed).tokens → p.queue.length < p.max_queue_size →
      (publish p elapsed pubOk false m).1 = true ∧
      (publish p elapsed pubOk false m).2.queue = p.queue ++ [m] ∧
      (publish p elapsed pubOk false m).2.burst_events = p.burst_events + 1) ∧
    (p.max_queue_size ≤ p.queue.length →
      ¬(1 ≤ (refillTokens p elapsed).tokens ∧ pubOk = true) →
      (publish p elapsed pubOk false m).1 = false ∧
      (publish p elapsed pubOk false m).2.messages_dropped = p.messages_dropped + 1 ∧
      (publish p elapsed pubOk false m).2.queue = p.queue) := by
  have hpub := publish_spec_aux p elapsed pubOk m
  refine ⟨?_, ?_, ?_, ?_, ?_⟩
  · rw [hpub]
    by_cases htok : 1 ≤ (refillTokens p elapsed).tokens
    · cases pubOk
      · simpa [htok] using (queueMessage_spec
          { refillTokens p elapsed with tokens := (refillTokens p elapsed).tokens - 1 } m).1
      · simp [htok]
    · simpa [htok] using (queueMessage_spec
        { refillTokens p elapsed with burst_events := p.burst_events + 1 } m).1
  · intro htok hok
    subst hok
    rw [hpub, if_pos htok, if_pos rfl]
    exact ⟨rfl, rfl, rfl, rfl⟩
  · intro htok hok hroom
    subst hok
    have hq := (queueMessage_spec
      { refillTokens p elapsed with tokens := (refillTokens p elapsed).tokens - 1 } m).2.1 hroom
    rw [hpub, if_pos htok, if_neg (by simp), hq]
    exact ⟨rfl, rfl⟩
  · intro htok hroom
    have hq := (queueMessage_spec
      { refillTokens p elapsed with burst_events := p.burst_events + 1 } m).2.1 hroom
    rw [hpub, if_neg htok, hq]
    exact ⟨rfl, rfl, rfl⟩
  · intro hfull hne
    by_cases htok : 1 ≤ (refillTokens p elapsed).tokens
    · cases pubOk
      · have hq := (queueMessage_spec
          { refillTokens p elapsed with tokens := (refillTokens p elapsed).tokens - 1 } m).2.2 hfull
        rw [hpub, if_pos htok, if_neg (by simp), hq]
        exact ⟨rfl, rfl, rfl⟩
      · exact absurd ⟨htok, rfl⟩ hne
    · have hq := (queueMessage_spec
        { refillTokens p elapsed with burst_events := p.burst_events + 1 } m).2.2 hfull
      rw [hpub, if_neg htok, hq]
      exact ⟨rfl, rfl, rfl⟩

/-- Witness: the publish contract evaluated on a full bucket with a
successful send, and on an empty bucket with a full queue. -/
theorem C8_publish_contract_witness :
    (publish (mkPublisher 500 100 10000) 0 true false 3).1 = true ∧
      (publish (mkPublisher 500 100 10000) 0 true false 3).2.messages_published = 1 ∧
      (publish ⟨500, 100, 1, 0, [7], 1, 0, 1, 0, 0, 0⟩ 0 true false 9).1 = false ∧
      (publish ⟨500, 100, 1, 0, [7], 1, 0, 1, 0, 0, 0⟩ 0 true false 9).2.messages_dropped = 1 := by
  have h1 := (C8_publish_contract (mkPublisher 500 100 10000) 0 true 3).2.1
    (by norm_num [refillTokens, mkPublisher, min_def]) rfl
  have h2 := (C8_publish_contract ⟨500, 100, 1, 0, [7], 1, 0, 1, 0, 0, 0⟩ 0 true 9).2.2.2.2
    (by norm_num)
    (by norm_num [refillTokens, min_def])
  exact ⟨h1.1, h1.2.2.1.trans rfl, h2.1, h2.2.1.trans rfl⟩

/-! ### C9: journal to CSV round-trip -/

/-- File contents after appending a list of records. -/
theorem appendAll_file (j : LocalJournal) (recs : List JVal) :
    (j.appendAll recs).file = j.file ++ recs.map dumpsVal := by
  induction recs generalizing j with
  | nil => simp [LocalJournal.appendAll]
  | cons r t ih =>
    simp [LocalJournal.appendAll] at ih ⊢
    rw [ih]
    simp [LocalJournal.append]

/-- iter_records recovers every record whose serialized line parses
back to itself. -/
theorem iterRecords_appendAll (recs : List JVal)
    (h : ∀ r ∈ recs, lineToRec (dumpsVal r) = some r) :
    (LocalJournal.empty.appendAll recs).iterRecords = recs := by
  unfold LocalJournal.iterRecords
  rw [appendAll_file]
  simp only [LocalJournal.empty, List.nil_append]
  induction recs with
  | nil => simp
  | cons r t ih =>
    simp only [List.map_cons, List.filterMap_cons, h r (List.mem_cons_self r t)]
    rw [ih (fun x hx => h x (List.mem_cons_of_mem r hx))]

/-- C9: after appending N JSON-serialisable records (records whose
json.dumps line parses back to the same record), export_csv produces
exactly one header row equal to field_order followed by one row per
appended record in append order, each row holding the record value per
column with an empty cell for a missing field, and returns N. -/
theorem C9_journal_csv_roundtrip (recs : List JVal) (field_order : List String)
    (h : ∀ r ∈ recs, lineToRec (dumpsVal r) = some r) :
    (LocalJournal.empty.appendAll recs).exportCSV field_order =
      ((field_order.map JVal.str) :: recs.map (csvRow field_order), recs.length) := by
  unfold LocalJournal.exportCSV
  rw [iterRecords_appendAll recs h]
  simp

/-- Witness: two concrete records, one with a missing second field,
exported over a two-column order. -/
theorem C9_journal_csv_roundtrip_witness :
    (LocalJournal.empty.appendAll
        [.obj [("a", .num 1), ("b", .str "hi")], .obj [("a", .num 2)]]).exportCSV ["a", "b"] =
      ([[.str "a", .str "b"],
        [.num 1, .str "hi"],
        [.num 2, .str ""]], 2) := by
  have h := C9_journal_csv_roundtrip
    [.obj [("a", .num 1), ("b", .str "hi")], .obj [("a", .num 2)]] ["a", "b"]
    (by intro r hr; fin_cases hr <;> rfl)
  exact h.trans rfl

/-! ### Association-list and flag-set helper lemmas -/

theorem pyAbs_nonneg (x : ℚ) : 0 ≤ pyAbs x := by
  unfold pyAbs
  split <;> linarith


theorem getKey_setKey_self {β : Type} (l : List (String × β)) (k : String) (v : β) :
    getKey (setKey l k v) k = some v := by
  induction l with
  | nil => simp [setKey, getKey]
  | cons p t ih =>
    obtain ⟨k0, v0⟩ := p
    by_cases h : k0 = k
    · subst h
      simp [setKey, getKey]
    · simp [setKey, getKey, h, ih]

theorem getKey_setKey_ne {β : Type} (l : List (String × β)) (k g : String) (v : β)
    (hne : g ≠ k) : getKey (setKey l k v) g = getKey l g := by
  have hkg : ¬ k = g := fun h => hne h.symm
  induction l with
  | nil =>
    simp only [setKey, getKey]
    rw [if_neg hkg]
  | cons p t ih =>
    obtain ⟨k0, v0⟩ := p
    by_cases h : k0 = k
    · subst h
      simp only [setKey, if_pos rfl, getKey]
      rw [if_neg hkg, if_neg hkg]
    · simp only [setKey, if_neg h, getKey, ih]

theorem mem_addFlag_iff (f g : String) (l : List String) :
    f ∈ addFlag g l ↔ f = g ∨ f ∈ l := by
  unfold addFlag
  by_cases h : g ∈ l
  · simp [h]
    intro hfg
    subst hfg
    exact h
  · simp [h, List.mem_append]
    tauto

theorem mem_addFlag_of_mem (f g : String) (l : List String) (h : f ∈ l) :
    f ∈ addFlag g l := (mem_addFlag_iff f g l).2 (Or.inr h)

theorem self_mem_addFlag (g : String) (l : List String) : g ∈ addFlag g l :=
  (mem_addFlag_iff g g l).2 (Or.inl rfl)

theorem addFlag_ne_nil (g : String) (l : List String) : addFlag g l ≠ [] := by
  intro h
  exact absurd (h ▸ self_mem_addFlag g l) (List.not_mem_nil g)

/-! ### Accumulator well-formedness (claim C10) -/

theorem AccWF_empty : AccWF ⟨[], [], []⟩ := by
  intro f hf
  exact absurd hf (List.not_mem_nil f)

theorem AccWF.flag {a : Acc} (ha : AccWF a) (f : String) {c : ℚ} (ρ : Reason)
    (h0 : 0 ≤ c) (h1 : c ≤ 1) : AccWF (a.flag f c ρ) := by
  intro g hg
  rw [Acc.flag] at hg
  by_cases hgf : g = f
  · subst hgf
    exact ⟨⟨c, getKey_setKey_self _ _ _, h0, h1⟩, ⟨ρ, getKey_setKey_self _ _ _⟩⟩
  · have hg2 : g ∈ a.flagged := by
      rcases (mem_addFlag_iff g f a.flagged).1 hg with h | h
      · exact absurd h hgf
      · exact h
    obtain ⟨⟨c0, hc0, hc0b⟩, ⟨ρ0, hρ0⟩⟩ := ha g hg2
    refine ⟨⟨c0, ?_, hc0b⟩, ⟨ρ0, ?_⟩⟩
    · rw [Acc.flag]
      rw [getKey_setKey_ne _ _ _ _ hgf]
      exact hc0
    · rw [Acc.flag]
      rw [getKey_setKey_ne _ _ _ _ hgf]
      exact hρ0

/-- The flag set only grows and old entries survive under Acc.flag. -/
theorem Acc.flag_preserves (a : Acc) (f g : String) (c : ℚ) (ρ : Reason)
    (hne : g ≠ f) (hg : g ∈ a.flagged) :
    g ∈ (a.flag f c ρ).flagged ∧
      getKey (a.flag f c ρ).confidence g = getKey a.confidence g ∧
      getKey (a.flag f c ρ).reasons g = getKey a.reasons g :=
  ⟨mem_addFlag_of_mem g f a.flagged hg,
   getKey_setKey_ne _ _ _ _ hne, getKey_setKey_ne _ _ _ _ hne⟩

/-- Nonnegative values clipped by min(1, x) land in the unit interval. -/
theorem min_one_mem_unit {x : ℚ} (hx : 0 ≤ x) : 0 ≤ min 1 x ∧ min 1 x ≤ 1 :=
  ⟨le_min (by norm_num) hx, min_le_left 1 x⟩

/-! ### C1: severity rule -/

/-- The severity computed inside detect agrees with the spec rule. -/
theorem detSeverity_eq_spec (a : Acc) :
    detSeverity a = specSeverity a.flagged a.confidence := by
  have h1 : (a.flagged.any (fun f => decide (f ∈ criticalFields)) = true) ↔
      (∃ f ∈ a.flagged, f = "voltage_v" ∨ f = "current_a" ∨ f = "power_w") := by
    simp [criticalFields, List.any_eq_true]
  have h2 : (a.confidence.any (fun p => decide ((9 : ℚ)/10 < p.2)) = true) ↔
      (∃ p ∈ a.confidence, (9 : ℚ)/10 < p.2) := by
    simp [List.any_eq_true]
  unfold detSeverity specSeverity
  rw [if_congr h1 rfl (if_congr Iff.rfl rfl (if_congr h2 rfl rfl))]

/-- The result of detect, when some, repackages the final accumulator
with its severity. -/
theorem detect_some_shape (cfg : OutlierConfig) (sqrtF : ℚ → ℚ) (st : DetState)
    (d : SampleIn) (r : DetResult) (h : (detect cfg sqrtF st d).1 = some r) :
    r = ⟨(runChecks cfg sqrtF st d).1.flagged,
         (runChecks cfg sqrtF st d).1.confidence,
         (runChecks cfg sqrtF st d).1.reasons,
         detSeverity (runChecks cfg sqrtF st d).1⟩ ∧
      (runChecks cfg sqrtF st d).1.flagged ≠ [] := by
  unfold detect at h
  by_cases hfl : (runChecks cfg sqrtF st d).1.flagged = []
  · simp [hfl] at h
  · simp [hfl] at h
    exact ⟨h.symm, hfl⟩

/-- C1: whenever the detector flags at least one field it assigns
exactly one severity, and that severity is determined by the spec rule:
critical when a flagged field is electrical, else warning at three or
more flags, else warning when some recorded confidence exceeds 0.9,
else info. -/
theorem C1_severity_rule (cfg : OutlierConfig) (sqrtF : ℚ → ℚ) (st : DetState)
    (d : SampleIn) (r : DetResult) (h : (detect cfg sqrtF st d).1 = some r) :
    r.severity = specSeverity r.flagged_fields r.confidence := by
  obtain ⟨hr, -⟩ := detect_some_shape cfg sqrtF st d r h
  subst hr
  exact detSeverity_eq_spec _

/-- Witness: one out-of-range voltage sample flags voltage_v and the
assigned severity matches the spec rule at the returned result. -/
theorem C1_severity_rule_witness :
    (detect defaultConfig (fun _ => 0) (DetState.init defaultConfig)
        { voltage_v := some 80 }).1 =
      some ⟨["voltage_v"], [("voltage_v", 1)], [("voltage_v", .absoluteBound)], .critical⟩ ∧
      Severity.critical =
        specSeverity ["voltage_v"] [("voltage_v", 1)] := by
  have h : (detect defaultConfig (fun _ => 0) (DetState.init defaultConfig)
      { voltage_v := some 80 }).1 =
      some ⟨["voltage_v"], [("voltage_v", 1)], [("voltage_v", .absoluteBound)], .critical⟩ := by
    rfl
  exact ⟨h, C1_severity_rule defaultConfig (fun _ => 0) (DetState.init defaultConfig)
    { voltage_v := some 80 } _ h⟩

/-! ### C10: well-formedness of detector output -/

theorem defaultConfig_valid : CfgValid defaultConfig := by
  constructor <;> norm_num [defaultConfig]

theorem voltageCheck_WF (cfg : OutlierConfig) (sqrtF : ℚ → ℚ)
    (win : String → RollingWindow) (d : SampleIn) (a : Acc)
    (hv : CfgValid cfg) (ha : AccWF a) :
    AccWF (voltageCheck cfg sqrtF win d a) := by
  unfold voltageCheck
  cases d.voltage_v with
  | none => exact ha
  | some v =>
    dsimp only
    split
    · exact ha.flag _ _ (by norm_num) (by norm_num)
    split
    case isFalse => exact ha
    split
    case isTrue hb hcnt hz =>
      have hzc : 0 ≤ pyAbs (v - (win "voltage_v").mean) /
          RollingWindow.std sqrtF (win "voltage_v") / (cfg.z_score_threshold * 2) :=
        div_nonneg (div_nonneg (pyAbs_nonneg _) hz.1.le) (mul_nonneg hv.zpos.le (by norm_num))
      have hflag := ha.flag "voltage_v" Reason.zScoreExceeded
        (min_one_mem_unit hzc).1 (min_one_mem_unit hzc).2
      split
      · exact hflag.flag _ _ (by norm_num) (by norm_num)
      · exact hflag
    case isFalse =>
      split
      · exact ha.flag _ _ (by norm_num) (by norm_num)
      · exact ha

theorem currentCheck_WF (cfg : OutlierConfig) (sqrtF : ℚ → ℚ)
    (win : String → RollingWindow) (d : SampleIn) (a : Acc)
    (hv : CfgValid cfg) (ha : AccWF a) :
    AccWF (currentCheck cfg sqrtF win d a) := by
  unfold currentCheck
  cases d.current_a with
  | none => exact ha
  | some c =>
    dsimp only
    split
    · exact ha.flag _ _ (by norm_num) (by norm_num)
    split
    case isFalse => exact ha
    split
    case isTrue hb hcnt hz =>
      have hzc : 0 ≤ pyAbs (c - (win "current_a").mean) /
          RollingWindow.std sqrtF (win "current_a") / (cfg.z_score_threshold * 2) :=
        div_nonneg (div_nonneg (pyAbs_nonneg _) hz.1.le) (mul_nonneg hv.zpos.le (by norm_num))
      exact ha.flag "current_a" Reason.zScoreExceeded
        (min_one_mem_unit hzc).1 (min_one_mem_unit hzc).2
    case isFalse => exact ha

theorem powerCheck_WF (cfg : OutlierConfig) (d : SampleIn) (a : Acc)
    (ha : AccWF a) : AccWF (powerCheck cfg d a) := by
  unfold powerCheck
  cases d.power_w with
  | none => exact ha
  | some p =>
    dsimp only
    split
    · exact ha.flag _ _ (by norm_num) (by norm_num)
    · exact ha

theorem detectElectrical_WF (cfg : OutlierConfig) (sqrtF : ℚ → ℚ)
    (win : String → RollingWindow) (d : SampleIn) (a : Acc)
    (hv : CfgValid cfg) (ha : AccWF a) :
    AccWF (detectElectrical cfg sqrtF win d a) :=
  powerCheck_WF cfg d _
    (currentCheck_WF cfg sqrtF win d _ hv
      (voltageCheck_WF cfg sqrtF win d a hv ha))

theorem gyroCheck_WF (cfg : OutlierConfig) (win : String → RollingWindow)
    (d : SampleIn) (a : Acc) (f : String) (hv : CfgValid cfg) (ha : AccWF a) :
    AccWF (gyroCheck cfg win d a f) := by
  unfold gyroCheck
  cases d.getField f with
  | none => exact ha
  | some v =>
    dsimp only
    split
    case isFalse => exact ha
    split
    case h_1 => exact ha
    case h_2 lv _ =>
      split
      case isTrue hr =>
        have hc : 0 ≤ pyAbs (v - lv) / (cfg.gyro_rate_max * 2) :=
          div_nonneg (pyAbs_nonneg _) (mul_nonneg hv.gpos.le (by norm_num))
        exact ha.flag _ _ (min_one_mem_unit hc).1 (min_one_mem_unit hc).2
      case isFalse => exact ha

theorem magCheck_WF (cfg : OutlierConfig) (sqrtF : ℚ → ℚ)
    (d : SampleIn) (a : Acc) (hv : CfgValid cfg) (hs : SqrtNonneg sqrtF)
    (ha : AccWF a) : AccWF (magCheck cfg sqrtF d a) := by
  unfold magCheck
  dsimp only
  split
  case isFalse => exact ha
  split
  case isTrue =>
    have hmag : 0 ≤ sqrtF ((d.accel_x.getD 0) ^ 2 + (d.accel_y.getD 0) ^ 2 +
        (d.accel_z.getD 0) ^ 2) := hs _ (by positivity)
    have hc : 0 ≤ sqrtF ((d.accel_x.getD 0) ^ 2 + (d.accel_y.getD 0) ^ 2 +
        (d.accel_z.getD 0) ^ 2) / cfg.accel_magnitude_max :=
      div_nonneg hmag hv.apos.le
    exact ha.flag _ _ (min_one_mem_unit hc).1 (min_one_mem_unit hc).2
  case isFalse => exact ha

theorem detectIMU_WF (cfg : OutlierConfig) (sqrtF : ℚ → ℚ)
    (win : String → RollingWindow) (d : SampleIn) (a : Acc)
    (hv : CfgValid cfg) (hs : SqrtNonneg sqrtF) (ha : AccWF a) :
    AccWF (detectIMU cfg sqrtF win d a) :=
  gyroCheck_WF cfg win d _ _ hv
    (gyroCheck_WF cfg win d _ _ hv
      (gyroCheck_WF cfg win d _ _ hv (magCheck_WF cfg sqrtF d a hv hs ha)))

theorem gpsBoundsCheck_WF (cfg : OutlierConfig) (lat lon alt : ℚ) (a : Acc)
    (ha : AccWF a) : AccWF (gpsBoundsCheck cfg lat lon alt a) := by
  unfold gpsBoundsCheck
  dsimp only
  split <;> split <;> split <;>
    first
      | assumption
      | (apply AccWF.flag _ _ _ (by norm_num) (by norm_num)
         first
           | assumption
           | (apply AccWF.flag _ _ _ (by norm_num) (by norm_num)
              first
                | assumption
                | exact ha.flag _ _ (by norm_num) (by norm_num)))

theorem gpsMotionCheck_WF (cfg : OutlierConfig) (sqrtF : ℚ → ℚ)
    (lat lon alt speed plat plon palt : ℚ) (a : Acc)
    (hv : CfgValid cfg) (hs : SqrtNonneg sqrtF) (ha : AccWF a) :
    AccWF (gpsMotionCheck cfg sqrtF lat lon alt speed plat plon palt a) := by
  unfold gpsMotionCheck
  dsimp only
  have hdist : 0 ≤ sqrtF (((lat - plat) * 111000) ^ 2 + ((lon - plon) * 78000) ^ 2) :=
    hs _ (by positivity)
  split
  case isTrue h1 =>
    have hc : 0 ≤ sqrtF (((lat - plat) * 111000) ^ 2 + ((lon - plon) * 78000) ^ 2) /
        (speed * cfg.sample_interval) / (cfg.gps_speed_distance_ratio * 2) :=
      div_nonneg (div_nonneg hdist h1.1.le) (mul_nonneg hv.rpos.le (by norm_num))
    have hflag := ha.flag "latitude" Reason.gpsSpeedMismatch
      (min_one_mem_unit hc).1 (min_one_mem_unit hc).2
    split
    case isTrue h2 =>
      have hc2 : 0 ≤ sqrtF (((lat - plat) * 111000) ^ 2 + ((lon - plon) * 78000) ^ 2) /
          cfg.sample_interval / (cfg.gps_impossible_speed * 2) :=
        div_nonneg (div_nonneg hdist hv.dtpos.le) (mul_nonneg hv.ipos.le (by norm_num))
      have hflag2 := hflag.flag "latitude" Reason.impossibleSpeed
        (min_one_mem_unit hc2).1 (min_one_mem_unit hc2).2
      split
      case isTrue h3 =>
        have hc3 : 0 ≤ pyAbs (alt - palt) / (cfg.altitude_rate_max * 2) :=
          div_nonneg (pyAbs_nonneg _) (mul_nonneg hv.altpos.le (by norm_num))
        exact hflag2.flag _ _ (min_one_mem_unit hc3).1 (min_one_mem_unit hc3).2
      case isFalse => exact hflag2
    case isFalse =>
      split
      case isTrue h3 =>
        have hc3 : 0 ≤ pyAbs (alt - palt) / (cfg.altitude_rate_max * 2) :=
          div_nonneg (pyAbs_nonneg _) (mul_nonneg hv.altpos.le (by norm_num))
        exact hflag.flag _ _ (min_one_mem_unit hc3).1 (min_one_mem_unit hc3).2
      case isFalse => exact hflag
  case isFalse =>
    split
    case isTrue h2 =>
      have hc2 : 0 ≤ sqrtF (((lat - plat) * 111000) ^ 2 + ((lon - plon) * 78000) ^ 2) /
          cfg.sample_interval / (cfg.gps_impossible_speed * 2) :=
        div_nonneg (div_nonneg hdist hv.dtpos.le) (mul_nonneg hv.ipos.le (by norm_num))
      have hflag2 := ha.flag "latitude" Reason.impossibleSpeed
        (min_one_mem_unit hc2).1 (min_one_mem_unit hc2).2
      split
      case isTrue h3 =>
        have hc3 : 0 ≤ pyAbs (alt - palt) / (cfg.altitude_rate_max * 2) :=
          div_nonneg (pyAbs_nonneg _) (mul_nonneg hv.altpos.le (by norm_num))
        exact hflag2.flag _ _ (min_one_mem_unit hc3).1 (min_one_mem_unit hc3).2
      case isFalse => exact hflag2
    case isFalse =>
      split
      case isTrue h3 =>
        have hc3 : 0 ≤ pyAbs (alt - palt) / (cfg.altitude_rate_max * 2) :=
          div_nonneg (pyAbs_nonneg _) (mul_nonneg hv.altpos.le (by norm_num))
        exact ha.flag _ _ (min_one_mem_unit hc3).1 (min_one_mem_unit hc3).2
      case isFalse => exact ha

theorem detectGPS_WF (cfg : OutlierConfig) (sqrtF : ℚ → ℚ)
    (track : GPSTrackWindow) (d : SampleIn) (a : Acc)
    (hv : CfgValid cfg) (hs : SqrtNonneg sqrtF) (ha : AccWF a) :
    AccWF (detectGPS cfg sqrtF track d a).1 := by
  unfold detectGPS
  cases d.latitude with
  | none => exact ha
  | some lat =>
    cases d.longitude with
    | none => exact ha
    | some lon =>
      dsimp only
      have hb := gpsBoundsCheck_WF cfg lat lon (d.altitude.getD 0) a ha
      cases track.getLast with
      | none => exact hb
      | some p =>
        obtain ⟨plat, plon, palt⟩ := p
        exact gpsMotionCheck_WF cfg sqrtF lat lon _ _ plat plon palt _ hv hs hb

theorem detectSpeed_WF (cfg : OutlierConfig) (win : String → RollingWindow)
    (d : SampleIn) (a : Acc) (hv : CfgValid cfg) (ha : AccWF a) :
    AccWF (detectSpeed cfg win d a) := by
  unfold detectSpeed
  cases d.speed_ms with
  | none => exact ha
  | some s =>
    dsimp only
    split
    · exact ha.flag _ _ (by norm_num) (by norm_num)
    case isFalse hneg =>
      split
      case isTrue hmax =>
        have hs0 : 0 ≤ s := le_of_not_lt hneg
        have hc : 0 ≤ s / (cfg.speed_max * (3/2)) :=
          div_nonneg hs0 (mul_nonneg hv.spos.le (by norm_num))
        exact ha.flag _ _ (min_one_mem_unit hc).1 (min_one_mem_unit hc).2
      case isFalse =>
        split
        case isFalse => exact ha
        case isTrue =>
          split
          case h_1 => exact ha
          case h_2 lv _ =>
            split
            case isTrue hr =>
              have hc : 0 ≤ pyAbs (s - lv) / cfg.sample_interval / (cfg.speed_impossible_accel * 2) :=
                div_nonneg (div_nonneg (pyAbs_nonneg _) hv.dtpos.le)
                  (mul_nonneg hv.accpos.le (by norm_num))
              exact ha.flag _ _ (min_one_mem_unit hc).1 (min_one_mem_unit hc).2
            case isFalse => exact ha

theorem energyCheck_WF (d : SampleIn) (lastE : Option ℚ) (a : Acc)
    (ha : AccWF a) : AccWF (energyCheck d lastE a).1 := by
  unfold energyCheck
  cases d.energy_j with
  | none => exact ha
  | some e =>
    dsimp only
    cases lastE with
    | none => exact ha
    | some le =>
      dsimp only
      split
      · exact ha.flag _ _ (by norm_num) (by norm_num)
      split
      · exact ha.flag _ _ (by norm_num) (by norm_num)
      · exact ha

theorem distanceCheck_WF (d : SampleIn) (lastD : Option ℚ) (a : Acc)
    (ha : AccWF a) : AccWF (distanceCheck d lastD a).1 := by
  unfold distanceCheck
  cases d.distance_m with
  | none => exact ha
  | some dv =>
    dsimp only
    cases lastD with
    | none => exact ha
    | some ld =>
      dsimp only
      split
      · exact ha.flag _ _ (by norm_num) (by norm_num)
      split
      · exact ha.flag _ _ (by norm_num) (by norm_num)
      · exact ha

theorem detectCumulative_WF (d : SampleIn) (lastE lastD : Option ℚ) (a : Acc)
    (ha : AccWF a) : AccWF (detectCumulative d lastE lastD a).1 := by
  unfold detectCumulative
  exact distanceCheck_WF d lastD _ (energyCheck_WF d lastE a ha)

theorem stuckStep_WF (cfg : OutlierConfig) (d : SampleIn)
    (st : Acc × (String → ℕ) × (String → Option ℚ)) (f : String)
    (hv : CfgValid cfg) (ha : AccWF st.1) :
    AccWF (stuckStep cfg d st f).1 := by
  unfold stuckStep
  cases d.getField f with
  | none => exact ha
  | some val =>
    dsimp only
    split
    case isTrue =>
      split
      case isTrue h =>
        have hc : 0 ≤ ((st.2.1 f + 1 : ℕ) : ℚ) / ((cfg.stuck_sensor_count : ℚ) * 2) :=
          div_nonneg (by positivity) (by positivity)
        exact ha.flag _ _ (min_one_mem_unit hc).1 (min_one_mem_unit hc).2
      case isFalse => exact ha
    case isFalse => exact ha

theorem detectStuck_WF (cfg : OutlierConfig) (d : SampleIn)
    (cnt : String → ℕ) (lv : String → Option ℚ) (a : Acc)
    (hv : CfgValid cfg) (ha : AccWF a) :
    AccWF (detectStuck cfg d cnt lv a).1 := by
  unfold detectStuck
  have main : ∀ (l : List String) (st : Acc × (String → ℕ) × (String → Option ℚ)),
      AccWF st.1 → AccWF ((l.foldl (stuckStep cfg d) st).1) := by
    intro l
    induction l with
    | nil => intro st h; exact h
    | cons x t ih =>
      intro st h
      exact ih (stuckStep cfg d st x) (stuckStep_WF cfg d st x hv h)
  exact main rollingFields (a, cnt, lv) ha

theorem runChecks_WF (cfg : OutlierConfig) (sqrtF : ℚ → ℚ) (st : DetState)
    (d : SampleIn) (hv : CfgValid cfg) (hs : SqrtNonneg sqrtF) :
    AccWF (runChecks cfg sqrtF st d).1 := by
  unfold runChecks
  dsimp only
  exact detectStuck_WF cfg d _ _ _ hv
    (detectCumulative_WF d _ _ _
      (detectSpeed_WF cfg _ d _ hv
        (detectGPS_WF cfg sqrtF _ d _ hv hs
          (detectIMU_WF cfg sqrtF _ d _ hv hs
            (detectElectrical_WF cfg sqrtF _ d _ hv AccWF_empty)))))

/-- C10: detect returns a nonempty outlier record exactly when at least
one field was flagged during the checks, and every flagged field in a
returned record has a confidence entry in the unit interval and a
defined reason entry. -/
theorem C10_detect_wellformed (cfg : OutlierConfig) (sqrtF : ℚ → ℚ)
    (st : DetState) (d : SampleIn) (hv : CfgValid cfg) (hs : SqrtNonneg sqrtF) :
    ((detect cfg sqrtF st d).1 = none ↔ (runChecks cfg sqrtF st d).1.flagged = []) ∧
    (∀ r : DetResult, (detect cfg sqrtF st d).1 = some r →
      r.flagged_fields ≠ [] ∧
      ∀ f ∈ r.flagged_fields,
        (∃ c, getKey r.confidence f = some c ∧ 0 ≤ c ∧ c ≤ 1) ∧
        (∃ ρ, getKey r.reasons f = some ρ)) := by
  constructor
  · unfold detect
    by_cases hfl : (runChecks cfg sqrtF st d).1.flagged = [] <;> simp [hfl]
  · intro r hr
    obtain ⟨hshape, hne⟩ := detect_some_shape cfg sqrtF st d r hr
    subst hshape
    exact ⟨hne, runChecks_WF cfg sqrtF st d hv hs⟩

/-- Witness: the well-formedness statement instantiated at the default
config, the zero sqrt oracle and a single out-of-range voltage sample. -/
theorem C10_detect_wellformed_witness :
    (∃ c, getKey [("voltage_v", (1 : ℚ))] "voltage_v" = some c ∧ 0 ≤ c ∧ c ≤ 1) ∧
      (∃ ρ, getKey [("voltage_v", Reason.absoluteBound)] "voltage_v" = some ρ) := by
  have h := (C10_detect_wellformed defaultConfig (fun _ => 0)
      (DetState.init defaultConfig) { voltage_v := some 80 }
      defaultConfig_valid (fun x _ => le_refl 0)).2
    ⟨["voltage_v"], [("voltage_v", 1)], [("voltage_v", .absoluteBound)], .critical⟩ rfl
  exact h.2 "voltage_v" (List.mem_singleton_self _)

/-! ### C5: electrical sudden jump

The sub-detectors that run after the voltage block never overwrite an
existing voltage_v entry; the following preservation lemmas make that
precise. -/

theorem keyUntouched_refl (g : String) (a : Acc) : keyUntouched g a a :=
  fun h => ⟨h, rfl, rfl⟩

theorem keyUntouched_trans {g : String} {a b c : Acc}
    (h1 : keyUntouched g a b) (h2 : keyUntouched g b c) : keyUntouched g a c := by
  intro h
  obtain ⟨hm, hc, hr⟩ := h1 h
  obtain ⟨hm2, hc2, hr2⟩ := h2 hm
  exact ⟨hm2, hc2.trans hc, hr2.trans hr⟩

theorem keyUntouched_flag (a : Acc) {g f : String} (c : ℚ) (ρ : Reason)
    (hne : g ≠ f) : keyUntouched g a (a.flag f c ρ) :=
  fun h => Acc.flag_preserves a f g c ρ hne h

theorem keyUntouched_ite_flag (a : Acc) {g f : String} (c : Prop) [Decidable c]
    (x : ℚ) (ρ : Reason) (hne : g ≠ f) :
    keyUntouched g a (if c then a.flag f x ρ else a) := by
  split
  · exact keyUntouched_flag a x ρ hne
  · exact keyUntouched_refl g a

theorem voltageCheck_untouched (cfg : OutlierConfig) (sqrtF : ℚ → ℚ)
    (win : String → RollingWindow) (d : SampleIn) (a : Acc) (g : String)
    (hg : g ≠ "voltage_v") : keyUntouched g a (voltageCheck cfg sqrtF win d a) := by
  unfold voltageCheck
  cases d.voltage_v with
  | none => exact keyUntouched_refl g a
  | some v =>
    dsimp only
    split
    · exact keyUntouched_flag a _ _ hg
    split
    case isFalse => exact keyUntouched_refl g a
    case isTrue =>
      exact keyUntouched_trans (keyUntouched_ite_flag a _ _ _ hg)
        (keyUntouched_ite_flag _ _ _ _ hg)

theorem currentCheck_untouched (cfg : OutlierConfig) (sqrtF : ℚ → ℚ)
    (win : String → RollingWindow) (d : SampleIn) (a : Acc) (g : String)
    (hg : g ≠ "current_a") : keyUntouched g a (currentCheck cfg sqrtF win d a) := by
  unfold currentCheck
  cases d.current_a with
  | none => exact keyUntouched_refl g a
  | some c =>
    dsimp only
    split
    · exact keyUntouched_flag a _ _ hg
    split
    case isFalse => exact keyUntouched_refl g a
    case isTrue =>
      split
      · exact keyUntouched_flag a _ _ hg
      · exact keyUntouched_refl g a

theorem powerCheck_untouched (cfg : OutlierConfig) (d : SampleIn) (a : Acc)
    (g : String) (hg : g ≠ "power_w") : keyUntouched g a (powerCheck cfg d a) := by
  unfold powerCheck
  cases d.power_w with
  | none => exact keyUntouched_refl g a
  | some p =>
    dsimp only
    split
    · exact keyUntouched_flag a _ _ hg
    · exact keyUntouched_refl g a

theorem gyroCheck_untouched (cfg : OutlierConfig) (win : String → RollingWindow)
    (d : SampleIn) (a : Acc) (f g : String) (hg : g ≠ f) :
    keyUntouched g a (gyroCheck cfg win d a f) := by
  unfold gyroCheck
  cases d.getField f with
  | none => exact keyUntouched_refl g a
  | some v =>
    dsimp only
    split
    case isFalse => exact keyUntouched_refl g a
    split
    case h_1 => exact keyUntouched_refl g a
    case h_2 =>
      split
      · exact keyUntouched_flag a _ _ hg
      · exact keyUntouched_refl g a

theorem magCheck_untouched (cfg : OutlierConfig) (sqrtF : ℚ → ℚ)
    (d : SampleIn) (a : Acc) (g : String)
    (hx : g ≠ "accel_x") (hy : g ≠ "accel_y") (hz : g ≠ "accel_z") :
    keyUntouched g a (magCheck cfg sqrtF d a) := by
  unfold magCheck
  dsimp only
  split
  case isFalse => exact keyUntouched_refl g a
  split
  case isFalse => exact keyUntouched_refl g a
  case isTrue =>
    split
    · split
      · exact keyUntouched_flag a _ _ hz
      · exact keyUntouched_flag a _ _ hy
    · split
      · exact keyUntouched_flag a _ _ hz
      · exact keyUntouched_flag a _ _ hx

theorem detectIMU_untouched (cfg : OutlierConfig) (sqrtF : ℚ → ℚ)
    (win : String → RollingWindow) (d : SampleIn) (a : Acc) (g : String)
    (hx : g ≠ "accel_x") (hy : g ≠ "accel_y") (hz : g ≠ "accel_z")
    (hgx : g ≠ "gyro_x") (hgy : g ≠ "gyro_y") (hgz : g ≠ "gyro_z") :
    keyUntouched g a (detectIMU cfg sqrtF win d a) := by
  unfold detectIMU
  exact keyUntouched_trans (magCheck_untouched cfg sqrtF d a g hx hy hz)
    (keyUntouched_trans (gyroCheck_untouched cfg win d _ _ g hgx)
      (keyUntouched_trans (gyroCheck_untouched cfg win d _ _ g hgy)
        (gyroCheck_untouched cfg win d _ _ g hgz)))

theorem gpsBoundsCheck_untouched (cfg : OutlierConfig) (lat lon alt : ℚ)
    (a : Acc) (g : String) (h1 : g ≠ "latitude") (h2 : g ≠ "longitude")
    (h3 : g ≠ "altitude") : keyUntouched g a (gpsBoundsCheck cfg lat lon alt a) := by
  unfold gpsBoundsCheck
  dsimp only
  exact keyUntouched_trans (keyUntouched_ite_flag a _ _ _ h1)
    (keyUntouched_trans (keyUntouched_ite_flag _ _ _ _ h2)
      (keyUntouched_ite_flag _ _ _ _ h3))

theorem gpsMotionCheck_untouched (cfg : OutlierConfig) (sqrtF : ℚ → ℚ)
    (lat lon alt speed plat plon palt : ℚ) (a : Acc) (g : String)
    (h1 : g ≠ "latitude") (h3 : g ≠ "altitude") :
    keyUntouched g a (gpsMotionCheck cfg sqrtF lat lon alt speed plat plon palt a) := by
  unfold gpsMotionCheck
  dsimp only
  exact keyUntouched_trans (keyUntouched_ite_flag a _ _ _ h1)
    (keyUntouched_trans (keyUntouched_ite_flag _ _ _ _ h1)
      (keyUntouched_ite_flag _ _ _ _ h3))

theorem detectGPS_untouched (cfg : OutlierConfig) (sqrtF : ℚ → ℚ)
    (track : GPSTrackWindow) (d : SampleIn) (a : Acc) (g : String)
    (h1 : g ≠ "latitude") (h2 : g ≠ "longitude") (h3 : g ≠ "altitude") :
    keyUntouched g a (detectGPS cfg sqrtF track d a).1 := by
  unfold detectGPS
  cases d.latitude with
  | none => exact keyUntouched_refl g a
  | some lat =>
    cases d.longitude with
    | none => exact keyUntouched_refl g a
    | some lon =>
      dsimp only
      refine keyUntouched_trans
        (gpsBoundsCheck_untouched cfg lat lon (d.altitude.getD 0) a g h1 h2 h3) ?_
      cases track.getLast with
      | none => exact keyUntouched_refl g _
      | some p =>
        obtain ⟨plat, plon, palt⟩ := p
        exact gpsMotionCheck_untouched cfg sqrtF lat lon _ _ plat plon palt _ g h1 h3

theorem detectSpeed_untouched (cfg : OutlierConfig) (win : String → RollingWindow)
    (d : SampleIn) (a : Acc) (g : String) (hg : g ≠ "speed_ms") :
    keyUntouched g a (detectSpeed cfg win d a) := by
  unfold detectSpeed
  cases d.speed_ms with
  | none => exact keyUntouched_refl g a
  | some s =>
    dsimp only
    split
    · exact keyUntouched_flag a _ _ hg
    split
    · exact keyUntouched_flag a _ _ hg
    split
    case isFalse => exact keyUntouched_refl g a
    split
    case h_1 => exact keyUntouched_refl g a
    case h_2 =>
      split
      · exact keyUntouched_flag a _ _ hg
      · exact keyUntouched_refl g a

theorem energyCheck_untouched (d : SampleIn) (lastE : Option ℚ) (a : Acc)
    (g : String) (hg : g ≠ "energy_j") : keyUntouched g a (energyCheck d lastE a).1 := by
  unfold energyCheck
  cases d.energy_j with
  | none => exact keyUntouched_refl g a
  | some e =>
    dsimp only
    cases lastE with
    | none => exact keyUntouched_refl g a
    | some le =>
      dsimp only
      split
      · exact keyUntouched_flag a _ _ hg
      split
      · exact keyUntouched_flag a _ _ hg
      · exact keyUntouched_refl g a

theorem distanceCheck_untouched (d : SampleIn) (lastD : Option ℚ) (a : Acc)
    (g : String) (hg : g ≠ "distance_m") : keyUntouched g a (distanceCheck d lastD a).1 := by
  unfold distanceCheck
  cases d.distance_m with
  | none => exact keyUntouched_refl g a
  | some dv =>
    dsimp only
    cases lastD with
    | none => exact keyUntouched_refl g a
    | some ld =>
      dsimp only
      split
      · exact keyUntouched_flag a _ _ hg
      split
      · exact keyUntouched_flag a _ _ hg
      · exact keyUntouched_refl g a

theorem detectCumulative_untouched (d : SampleIn) (lastE lastD : Option ℚ)
    (a : Acc) (g : String) (h1 : g ≠ "energy_j") (h2 : g ≠ "distance_m") :
    keyUntouched g a (detectCumulative d lastE lastD a).1 := by
  unfold detectCumulative
  exact keyUntouched_trans (energyCheck_untouched d lastE a g h1)
    (distanceCheck_untouched d lastD _ g h2)

/-- stuck-sensor step never overwrites a field that is already flagged:
the already-flagged guard blocks it. -/
theorem stuckStep_untouched (cfg : OutlierConfig) (d : SampleIn)
    (st : Acc × (String → ℕ) × (String → Option ℚ)) (f g : String) :
    keyUntouched g st.1 (stuckStep cfg d st f).1 := by
  unfold stuckStep
  cases d.getField f with
  | none => exact keyUntouched_refl g st.1
  | some val =>
    dsimp only
    split
    case isFalse => exact keyUntouched_refl g st.1
    case isTrue =>
      split
      case isFalse => exact keyUntouched_refl g st.1
      case isTrue hcond =>
        intro hg
        by_cases hgf : g = f
        · subst hgf
          exact absurd hg hcond.2
        · exact Acc.flag_preserves st.1 f g _ _ hgf hg

theorem detectStuck_untouched (cfg : OutlierConfig) (d : SampleIn)
    (cnt : String → ℕ) (lv : String → Option ℚ) (a : Acc) (g : String) :
    keyUntouched g a (detectStuck cfg d cnt lv a).1 := by
  unfold detectStuck
  have main : ∀ (l : List String) (st : Acc × (String → ℕ) × (String → Option ℚ)),
      keyUntouched g st.1 ((l.foldl (stuckStep cfg d) st).1) := by
    intro l
    induction l with
    | nil => intro st; exact keyUntouched_refl g st.1
    | cons x t ih =>
      intro st
      exact keyUntouched_trans (stuckStep_untouched cfg d st x g) (ih (stuckStep cfg d st x))
  exact main rollingFields (a, cnt, lv)

/-- Everything that runs after the electrical pass leaves a voltage_v
entry untouched. -/
theorem runChecks_voltage_untouched (cfg : OutlierConfig) (sqrtF : ℚ → ℚ)
    (st : DetState) (d : SampleIn) :
    keyUntouched "voltage_v" (detectElectrical cfg sqrtF st.windows d ⟨[], [], []⟩)
      (runChecks cfg sqrtF st d).1 := by
  unfold runChecks
  dsimp only
  refine keyUntouched_trans (detectIMU_untouched cfg sqrtF st.windows d _ _
    (by decide) (by decide) (by decide) (by decide) (by decide) (by decide)) ?_
  refine keyUntouched_trans (detectGPS_untouched cfg sqrtF st.gpsTrack d _ _
    (by decide) (by decide) (by decide)) ?_
  refine keyUntouched_trans (detectSpeed_untouched cfg st.windows d _ _ (by decide)) ?_
  refine keyUntouched_trans (detectCumulative_untouched d st.lastEnergy st.lastDistance _ _
    (by decide) (by decide)) ?_
  exact detectStuck_untouched cfg d st.stuckCounters st.lastValues _ _

/-- Under the amended conditions the voltage block flags voltage_v as a
sudden jump with confidence 0.7. -/
theorem voltageCheck_sudden_jump (cfg : OutlierConfig) (sqrtF : ℚ → ℚ)
    (st : DetState) (d : SampleIn) (v : ℚ)
    (hdv : d.voltage_v = some v)
    (hb : ¬(v < cfg.voltage_min ∨ cfg.voltage_max < v))
    (hcnt : 10 ≤ (st.windows "voltage_v").count)
    (hz : ¬(0 < RollingWindow.std sqrtF (st.windows "voltage_v") ∧
        cfg.z_score_threshold <
          pyAbs (v - (st.windows "voltage_v").mean) /
            RollingWindow.std sqrtF (st.windows "voltage_v")))
    (hμ : 0 < (st.windows "voltage_v").mean)
    (hjump : cfg.electrical_jump_pct <
        pyAbs (v - (st.windows "voltage_v").mean) / (st.windows "voltage_v").mean) :
    voltageCheck cfg sqrtF st.windows d ⟨[], [], []⟩ =
      Acc.flag ⟨[], [], []⟩ "voltage_v" (7/10) .suddenJump := by
  unfold voltageCheck
  rw [hdv]
  dsimp only
  rw [if_neg hb, if_pos hcnt, if_neg hz]
  rw [if_pos ⟨hμ, hjump, List.not_mem_nil "voltage_v"⟩]

/-- C5 amended: the sudden-jump check exists only for voltage_v (the
source has no such branch for current_a or power_w), and it requires at
least 10 window samples and a positive rolling mean; under those
conditions, when the absolute-bound and z-score checks did not fire but
the relative deviation from the rolling mean exceeds
electrical_jump_pct (default 0.5), detect flags voltage_v with
confidence 0.7 and reason SUDDEN_JUMP. -/
theorem C5_sudden_jump_amended (cfg : OutlierConfig) (sqrtF : ℚ → ℚ)
    (st : DetState) (d : SampleIn) (v : ℚ)
    (hdv : d.voltage_v = some v)
    (hb : ¬(v < cfg.voltage_min ∨ cfg.voltage_max < v))
    (hcnt : 10 ≤ (st.windows "voltage_v").count)
    (hz : ¬(0 < RollingWindow.std sqrtF (st.windows "voltage_v") ∧
        cfg.z_score_threshold <
          pyAbs (v - (st.windows "voltage_v").mean) /
            RollingWindow.std sqrtF (st.windows "voltage_v")))
    (hμ : 0 < (st.windows "voltage_v").mean)
    (hjump : cfg.electrical_jump_pct <
        pyAbs (v - (st.windows "voltage_v").mean) / (st.windows "voltage_v").mean) :
    (detect cfg sqrtF st d).1 =
        some ⟨(runChecks cfg sqrtF st d).1.flagged, (runChecks cfg sqrtF st d).1.confidence,
          (runChecks cfg sqrtF st d).1.reasons, detSeverity (runChecks cfg sqrtF st d).1⟩ ∧
      "voltage_v" ∈ (runChecks cfg sqrtF st d).1.flagged ∧
      getKey (runChecks cfg sqrtF st d).1.confidence "voltage_v" = some (7/10) ∧
      getKey (runChecks cfg sqrtF st d).1.reasons "voltage_v" = some .suddenJump := by
  have hvc := voltageCheck_sudden_jump cfg sqrtF st d v hdv hb hcnt hz hμ hjump
  have he : keyUntouched "voltage_v" (voltageCheck cfg sqrtF st.windows d ⟨[], [], []⟩)
      (detectElectrical cfg sqrtF st.windows d ⟨[], [], []⟩) := by
    unfold detectElectrical
    exact keyUntouched_trans
      (currentCheck_untouched cfg sqrtF st.windows d _ _ (by decide))
      (powerCheck_untouched cfg d _ _ (by decide))
  have hall := keyUntouched_trans he (runChecks_voltage_untouched cfg sqrtF st d)
  have hmem : "voltage_v" ∈ (voltageCheck cfg sqrtF st.windows d ⟨[], [], []⟩).flagged := by
    rw [hvc]
    exact self_mem_addFlag "voltage_v" []
  obtain ⟨hm, hc, hr⟩ := hall hmem
  have hcv : getKey (voltageCheck cfg sqrtF st.windows d ⟨[], [], []⟩).confidence
      "voltage_v" = some (7/10) := by
    rw [hvc]
    rfl
  have hrv : getKey (voltageCheck cfg sqrtF st.windows d ⟨[], [], []⟩).reasons
      "voltage_v" = some Reason.suddenJump := by
    rw [hvc]
    rfl
  have hne : (runChecks cfg sqrtF st d).1.flagged ≠ [] := by
    intro hemp
    rw [hemp] at hm
    exact List.not_mem_nil _ hm
  refine ⟨?_, hm, hc.trans hcv, hr.trans hrv⟩
  unfold detect
  dsimp only
  rw [if_neg hne]

set_option maxRecDepth 100000 in
/-- Witness: ten alternating in-window voltages 25 and 35 give mean 30
and std 5; the value 50 stays inside the absolute bounds, its z-score 4
stays under the threshold 5, and its relative deviation 2/3 exceeds
0.5, so the sudden-jump flag fires with confidence 0.7. -/
theorem C5_sudden_jump_amended_witness :
    "voltage_v" ∈ (runChecks defaultConfig (fun _ => 5)
        (detectFold defaultConfig (fun _ => 5) (DetState.init defaultConfig)
          [{ voltage_v := some 25 }, { voltage_v := some 35 }, { voltage_v := some 25 },
           { voltage_v := some 35 }, { voltage_v := some 25 }, { voltage_v := some 35 },
           { voltage_v := some 25 }, { voltage_v := some 35 }, { voltage_v := some 25 },
           { voltage_v := some 35 }])
        { voltage_v := some 50 }).1.flagged ∧
      getKey (runChecks defaultConfig (fun _ => 5)
        (detectFold defaultConfig (fun _ => 5) (DetState.init defaultConfig)
          [{ voltage_v := some 25 }, { voltage_v := some 35 }, { voltage_v := some 25 },
           { voltage_v := some 35 }, { voltage_v := some 25 }, { voltage_v := some 35 },
           { voltage_v := some 25 }, { voltage_v := some 35 }, { voltage_v := some 25 },
           { voltage_v := some 35 }])
        { voltage_v := some 50 }).1.confidence "voltage_v" = some (7/10) := by
  have h := C5_sudden_jump_amended defaultConfig (fun _ => 5)
    (detectFold defaultConfig (fun _ => 5) (DetState.init defaultConfig)
      [{ voltage_v := some 25 }, { voltage_v := some 35 }, { voltage_v := some 25 },
       { voltage_v := some 35 }, { voltage_v := some 25 }, { voltage_v := some 35 },
       { voltage_v := some 25 }, { voltage_v := some 35 }, { voltage_v := some 25 },
       { voltage_v := some 35 }])
    { voltage_v := some 50 } 50 rfl (by decide) (by with_unfolding_all decide)
    (by with_unfolding_all decide) (by with_unfolding_all decide) (by with_unfolding_all decide)
  exact ⟨h.2.1, h.2.2.1⟩

set_option maxRecDepth 100000 in
/-- C5 as stated is false for current_a: after ten alternating currents
4 and 6 the window has mean 5 and std 1; the value 8 passes the
absolute bounds, its z-score 3 stays under 5, and its relative
deviation 0.6 exceeds 0.5, yet detect flags nothing at all (the source
has no sudden-jump branch for current_a). -/
theorem C5_sudden_jump_counterexample :
    (¬((8 : ℚ) < defaultConfig.current_min ∨ defaultConfig.current_max < (8 : ℚ))) ∧
      ((detectFold defaultConfig (fun _ => 1) (DetState.init defaultConfig)
          [{ current_a := some 4 }, { current_a := some 6 }, { current_a := some 4 },
           { current_a := some 6 }, { current_a := some 4 }, { current_a := some 6 },
           { current_a := some 4 }, { current_a := some 6 }, { current_a := some 4 },
           { current_a := some 6 }]).windows "current_a").count = 10 ∧
      ((detectFold defaultConfig (fun _ => 1) (DetState.init defaultConfig)
          [{ current_a := some 4 }, { current_a := some 6 }, { current_a := some 4 },
           { current_a := some 6 }, { current_a := some 4 }, { current_a := some 6 },
           { current_a := some 4 }, { current_a := some 6 }, { current_a := some 4 },
           { current_a := some 6 }]).windows "current_a").mean = 5 ∧
      RollingWindow.std (fun _ => 1)
        ((detectFold defaultConfig (fun _ => 1) (DetState.init defaultConfig)
          [{ current_a := some 4 }, { current_a := some 6 }, { current_a := some 4 },
           { current_a := some 6 }, { current_a := some 4 }, { current_a := some 6 },
           { current_a := some 4 }, { current_a := some 6 }, { current_a := some 4 },
           { current_a := some 6 }]).windows "current_a") = 1 ∧
      ¬(defaultConfig.z_score_threshold < pyAbs ((8 : ℚ) - 5) / 1) ∧
      defaultConfig.electrical_jump_pct < pyAbs ((8 : ℚ) - 5) / pyAbs (5 : ℚ) ∧
      (detect defaultConfig (fun _ => 1)
        (detectFold defaultConfig (fun _ => 1) (DetState.init defaultConfig)
          [{ current_a := some 4 }, { current_a := some 6 }, { current_a := some 4 },
           { current_a := some 6 }, { current_a := some 4 }, { current_a := some 6 },
           { current_a := some 4 }, { current_a := some 6 }, { current_a := some 4 },
           { current_a := some 6 }])
        { current_a := some 8 }).1 = none := by
  refine ⟨by decide, by with_unfolding_all decide, by with_unfolding_all decide,
    by with_unfolding_all decide, by with_unfolding_all decide,
    by with_unfolding_all decide, by with_unfolding_all decide⟩

/-! ### C6: stuck sensor -/

set_option maxRecDepth 1000000 in
/-- C6: the per-field stuck counter increments when the new value
equals the previous stored value and resets to 0 otherwise; the flag
fires with confidence min(1, counter/(2K)) when the incremented counter
reaches K (default 15) and the field is not already flagged; and a
concrete run of 16 samples with identical gyro_x = 0.1 and varying
energy_j flags gyro_x with reason STUCK_SENSOR on the 16th sample. -/
theorem C6_stuck_sensor :
    (∀ (cfg : OutlierConfig) (d : SampleIn)
        (st : Acc × (String → ℕ) × (String → Option ℚ)) (f : String) (val : ℚ),
      d.getField f = some val →
        ((st.2.2 f = some val → (stuckStep cfg d st f).2.1 f = st.2.1 f + 1) ∧
         (st.2.2 f ≠ some val → (stuckStep cfg d st f).2.1 f = 0) ∧
         (stuckStep cfg d st f).2.2 f = some val ∧
         (st.2.2 f = some val → cfg.stuck_sensor_count ≤ st.2.1 f + 1 →
           f ∉ st.1.flagged →
           (stuckStep cfg d st f).1 =
             st.1.flag f
               (min 1 ((st.2.1 f + 1 : ℕ) / ((cfg.stuck_sensor_count : ℚ) * 2)))
               .stuckSensor))) ∧
    (detect defaultConfig (fun _ => 0)
        (detectFold defaultConfig (fun _ => 0) (DetState.init defaultConfig)
          [{ gyro_x := some (1/10), energy_j := some 100 },
           { gyro_x := some (1/10), energy_j := some 200 },
           { gyro_x := some (1/10), energy_j := some 300 },
           { gyro_x := some (1/10), energy_j := some 400 },
           { gyro_x := some (1/10), energy_j := some 500 },
           { gyro_x := some (1/10), energy_j := some 600 },
           { gyro_x := some (1/10), energy_j := some 700 },
           { gyro_x := some (1/10), energy_j := some 800 },
           { gyro_x := some (1/10), energy_j := some 900 },
           { gyro_x := some (1/10), energy_j := some 1000 },
           { gyro_x := some (1/10), energy_j := some 1100 },
           { gyro_x := some (1/10), energy_j := some 1200 },
           { gyro_x := some (1/10), energy_j := some 1300 },
           { gyro_x := some (1/10), energy_j := some 1400 },
           { gyro_x := some (1/10), energy_j := some 1500 }])
        { gyro_x := some (1/10), energy_j := some 1600 }).1 =
      some ⟨["gyro_x"], [("gyro_x", 1/2)], [("gyro_x", .stuckSensor)], .info⟩ := by
  constructor
  · intro cfg d st f val hget
    unfold stuckStep
    rw [hget]
    dsimp only
    by_cases heq : st.2.2 f = some val
    · rw [if_pos heq]
      refine ⟨fun _ => by simp [upd], fun hne => absurd heq hne, by simp [upd], ?_⟩
      intro _ hK hmem
      dsimp only
      rw [if_pos ⟨hK, hmem⟩]
    · rw [if_neg heq]
      exact ⟨fun h => absurd h heq, fun _ => by simp [upd], by simp [upd],
        fun h => absurd h heq⟩
  · with_unfolding_all decide

/-- Witness: the stuck-counter transition applied at a counter of 14
with a matching previous value fires the flag at counter 15 with
confidence 1/2. -/
theorem C6_stuck_sensor_witness :
    (stuckStep defaultConfig { gyro_x := some 1 }
        (⟨[], [], []⟩, (fun _ => 14), (fun _ => some 1)) "gyro_x").2.1 "gyro_x" = 15 ∧
      (stuckStep defaultConfig { gyro_x := some 1 }
        (⟨[], [], []⟩, (fun _ => 14), (fun _ => some 1)) "gyro_x").1 =
        Acc.flag ⟨[], [], []⟩ "gyro_x"
          (min 1 (((14 : ℕ) + 1 : ℕ) / ((defaultConfig.stuck_sensor_count : ℚ) * 2)))
          .stuckSensor := by
  have h := (C6_stuck_sensor.1 defaultConfig { gyro_x := some 1 }
    (⟨[], [], []⟩, (fun _ => 14), (fun _ => some 1)) "gyro_x" 1 rfl)
  refine ⟨(h.1 rfl).trans rfl, ?_⟩
  exact h.2.2.2 rfl (by decide) (List.not_mem_nil _)

/-! ### C2 and C3: normalizer invariants -/

theorem pyAbs_eq_abs (x : ℚ) : pyAbs x = |x| := by
  unfold pyAbs
  split
  case isTrue h => exact (abs_of_neg h).symm
  case isFalse h => exact (abs_of_nonneg (le_of_not_lt h)).symm

/-- Round-half-to-even lands within a half unit of its argument. -/
theorem rndHalfEven_close (x : ℚ) : |(rndHalfEven x : ℚ) - x| ≤ 1/2 := by
  unfold rndHalfEven
  dsimp only
  have hf0 : (0 : ℚ) ≤ x - ⌊x⌋ := by
    have := Int.floor_le x
    linarith
  have hf1 : x - ⌊x⌋ < 1 := by
    have := Int.lt_floor_add_one x
    linarith
  split
  case isTrue h => rw [abs_sub_comm]; rw [abs_of_nonneg hf0]; linarith
  case isFalse h =>
    split
    case isTrue h2 =>
      rw [abs_of_nonneg (by push_cast; linarith)]
      push_cast
      linarith
    case isFalse h2 =>
      have heq : x - ⌊x⌋ = 1/2 := by linarith
      split
      case isTrue => rw [abs_sub_comm, abs_of_nonneg hf0]; linarith
      case isFalse =>
        rw [abs_of_nonneg (by push_cast; linarith)]
        push_cast
        linarith

/-- Python round(x, d) lands within half of the last kept decimal. -/
theorem pyRound_close (d : ℕ) (x : ℚ) : |pyRound d x - x| ≤ 1 / (2 * 10 ^ d) := by
  unfold pyRound
  have hpow : (0 : ℚ) < 10 ^ d := by positivity
  have h := rndHalfEven_close (x * 10 ^ d)
  have heq : (rndHalfEven (x * 10 ^ d) : ℚ) / 10 ^ d - x =
      ((rndHalfEven (x * 10 ^ d) : ℚ) - x * 10 ^ d) / 10 ^ d := by
    field_simp
    ring
  rw [heq, abs_div, abs_of_pos hpow, div_le_div_iff hpow (by positivity)]
  calc |(rndHalfEven (x * 10 ^ d) : ℚ) - x * 10 ^ d| * (2 * 10 ^ d)
      ≤ (1/2) * (2 * 10 ^ d) := by
        apply mul_le_mul_of_nonneg_right h
        positivity
    _ = 1 * 10 ^ d := by ring

theorem clamp01_id {x : ℚ} (h0 : 0 ≤ x) (h1 : x ≤ 1) : clamp01 x = x := by
  unfold clamp01
  rw [min_eq_right h1, max_eq_right h0]

/-- Consistency bound for one reconciled driver-input pair, following
the two conditional assignments of the source (fill the percent side
from the unit side at 2 decimals, then the unit side from the percent
side at 3 decimals). -/
theorem syncPair_consistent (p t : ℚ) (hp0 : 0 ≤ p) (hp1 : p ≤ 100)
    (ht0 : 0 ≤ t) (ht1 : t ≤ 1) (hone : t = 0 ∨ p = 0) :
    |(if p = 0 ∧ t ≠ 0 then pyRound 2 (clamp01 t * 100) else p) -
      100 * (if t = 0 ∧ (if p = 0 ∧ t ≠ 0 then pyRound 2 (clamp01 t * 100) else p) ≠ 0 then
        pyRound 3 (clamp01 ((if p = 0 ∧ t ≠ 0 then pyRound 2 (clamp01 t * 100) else p) / 100))
      else t)| ≤ 1/20 := by
  rcases hone with ht | hp
  · subst ht
    rw [if_neg (by simp)]
    by_cases hpz : p = 0
    · subst hpz
      simp
    · rw [if_pos ⟨rfl, hpz⟩]
      have hc : clamp01 (p / 100) = p / 100 :=
        clamp01_id (by positivity) (by linarith [div_le_one_of_le hp1 (by norm_num : (0:ℚ) ≤ 100)])
      rw [hc]
      have h := pyRound_close 3 (p / 100)
      have heq : p - 100 * pyRound 3 (p / 100) = -(100 * (pyRound 3 (p / 100) - p / 100)) := by
        ring
      rw [heq, abs_neg, abs_mul, abs_of_nonneg (by norm_num : (0:ℚ) ≤ 100)]
      calc (100 : ℚ) * |pyRound 3 (p / 100) - p / 100| ≤ 100 * (1 / (2 * 10 ^ 3)) := by
            apply mul_le_mul_of_nonneg_left h
            norm_num
        _ ≤ 1/20 := by norm_num
  · subst hp
    by_cases htz : t = 0
    · subst htz
      simp
    · rw [if_pos ⟨rfl, htz⟩]
      rw [if_neg (by simp [htz])]
      rw [clamp01_id ht0 ht1]
      have hcomm : (100 : ℚ) * t = t * 100 := by ring
      rw [hcomm]
      exact (pyRound_close 2 (t * 100)).trans (by norm_num)

/-- C2: every default field of a normalized sample is present; a field
missing from the input is defaulted to 0 by the setdefault pass (for
the driver-input pairs: when its partner is also missing), power_w is
recomputed as voltage_v * current_a when the input omitted it, and
total_acceleration is the Euclidean norm of the accel vector when the
input omitted it (stated through the sqrt oracle correct at the summed
squares). -/
theorem C2_normalizer_defaults (cfg : OutlierConfig) (sqrtF : ℚ → ℚ)
    (mockMode : Bool) (st : DetState) (msg : RawMsg) :
    (msg.fields.speed_ms = none → (normalize cfg sqrtF mockMode st msg).1.speed_ms = 0) ∧
    (msg.fields.voltage_v = none → (normalize cfg sqrtF mockMode st msg).1.voltage_v = 0) ∧
    (msg.fields.current_a = none → (normalize cfg sqrtF mockMode st msg).1.current_a = 0) ∧
    (msg.fields.energy_j = none → (normalize cfg sqrtF mockMode st msg).1.energy_j = 0) ∧
    (msg.fields.distance_m = none → (normalize cfg sqrtF mockMode st msg).1.distance_m = 0) ∧
    (msg.fields.latitude = none → (normalize cfg sqrtF mockMode st msg).1.latitude = 0) ∧
    (msg.fields.longitude = none → (normalize cfg sqrtF mockMode st msg).1.longitude = 0) ∧
    (msg.fields.altitude = none → (normalize cfg sqrtF mockMode st msg).1.altitude = 0) ∧
    (msg.fields.gyro_x = none → (normalize cfg sqrtF mockMode st msg).1.gyro_x = 0) ∧
    (msg.fields.gyro_y = none → (normalize cfg sqrtF mockMode st msg).1.gyro_y = 0) ∧
    (msg.fields.gyro_z = none → (normalize cfg sqrtF mockMode st msg).1.gyro_z = 0) ∧
    (msg.fields.accel_x = none → (normalize cfg sqrtF mockMode st msg).1.accel_x = 0) ∧
    (msg.fields.accel_y = none → (normalize cfg sqrtF mockMode st msg).1.accel_y = 0) ∧
    (msg.fields.accel_z = none → (normalize cfg sqrtF mockMode st msg).1.accel_z = 0) ∧
    (msg.fields.message_id = none → (normalize cfg sqrtF mockMode st msg).1.message_id = 0) ∧
    (msg.fields.uptime_seconds = none →
      (normalize cfg sqrtF mockMode st msg).1.uptime_seconds = 0) ∧
    (msg.fields.throttle = none → msg.fields.throttle_pct = none →
      (normalize cfg sqrtF mockMode st msg).1.throttle = 0 ∧
      (normalize cfg sqrtF mockMode st msg).1.throttle_pct = 0) ∧
    (msg.fields.brake = none → msg.fields.brake_pct = none →
      (normalize cfg sqrtF mockMode st msg).1.brake = 0 ∧
      (normalize cfg sqrtF mockMode st msg).1.brake_pct = 0) ∧
    (msg.fields.power_w = none →
      (normalize cfg sqrtF mockMode st msg).1.power_w =
        (normalize cfg sqrtF mockMode st msg).1.voltage_v *
          (normalize cfg sqrtF mockMode st msg).1.current_a) ∧
    (msg.fields.total_acceleration = none →
      (0 ≤ sqrtF ((msg.fields.accel_x.getD 0) ^ 2 + (msg.fields.accel_y.getD 0) ^ 2 +
            (msg.fields.accel_z.getD 0) ^ 2) ∧
        (sqrtF ((msg.fields.accel_x.getD 0) ^ 2 + (msg.fields.accel_y.getD 0) ^ 2 +
            (msg.fields.accel_z.getD 0) ^ 2)) ^ 2 =
          (msg.fields.accel_x.getD 0) ^ 2 + (msg.fields.accel_y.getD 0) ^ 2 +
            (msg.fields.accel_z.getD 0) ^ 2) →
      0 ≤ (normalize cfg sqrtF mockMode st msg).1.total_acceleration ∧
        (normalize cfg sqrtF mockMode st msg).1.total_acceleration ^ 2 =
          (normalize cfg sqrtF mockMode st msg).1.accel_x ^ 2 +
            (normalize cfg sqrtF mockMode st msg).1.accel_y ^ 2 +
            (normalize cfg sqrtF mockMode st msg).1.accel_z ^ 2) := by
  refine ⟨?_, ?_, ?_, ?_, ?_, ?_, ?_, ?_, ?_, ?_, ?_, ?_, ?_, ?_, ?_, ?_, ?_, ?_, ?_, ?_⟩
  · intro h
    show msg.fields.speed_ms.getD 0 = 0
    rw [h]
    rfl
  · intro h
    show msg.fields.voltage_v.getD 0 = 0
    rw [h]
    rfl
  · intro h
    show msg.fields.current_a.getD 0 = 0
    rw [h]
    rfl
  · intro h
    show msg.fields.energy_j.getD 0 = 0
    rw [h]
    rfl
  · intro h
    show msg.fields.distance_m.getD 0 = 0
    rw [h]
    rfl
  · intro h
    show msg.fields.latitude.getD 0 = 0
    rw [h]
    rfl
  · intro h
    show msg.fields.longitude.getD 0 = 0
    rw [h]
    rfl
  · intro h
    show msg.fields.altitude.getD 0 = 0
    rw [h]
    rfl
  · intro h
    show msg.fields.gyro_x.getD 0 = 0
    rw [h]
    rfl
  · intro h
    show msg.fields.gyro_y.getD 0 = 0
    rw [h]
    rfl
  · intro h
    show msg.fields.gyro_z.getD 0 = 0
    rw [h]
    rfl
  · intro h
    show msg.fields.accel_x.getD 0 = 0
    rw [h]
    rfl
  · intro h
    show msg.fields.accel_y.getD 0 = 0
    rw [h]
    rfl
  · intro h
    show msg.fields.accel_z.getD 0 = 0
    rw [h]
    rfl
  · intro h
    show msg.fields.message_id.getD 0 = 0
    rw [h]
    rfl
  · intro h
    show msg.fields.uptime_seconds.getD 0 = 0
    rw [h]
    rfl
  · intro h1 h2
    constructor
    · show (syncDriverInputs (msg.fields.throttle_pct.getD 0) (msg.fields.brake_pct.getD 0)
        (msg.fields.throttle.getD 0) (msg.fields.brake.getD 0)).2.2.1 = 0
      rw [h1, h2]
      simp [syncDriverInputs]
    · show (syncDriverInputs (msg.fields.throttle_pct.getD 0) (msg.fields.brake_pct.getD 0)
        (msg.fields.throttle.getD 0) (msg.fields.brake.getD 0)).1 = 0
      rw [h1, h2]
      simp [syncDriverInputs]
  · intro h1 h2
    constructor
    · show (syncDriverInputs (msg.fields.throttle_pct.getD 0) (msg.fields.brake_pct.getD 0)
        (msg.fields.throttle.getD 0) (msg.fields.brake.getD 0)).2.2.2 = 0
      rw [h1, h2]
      simp [syncDriverInputs]
    · show (syncDriverInputs (msg.fields.throttle_pct.getD 0) (msg.fields.brake_pct.getD 0)
        (msg.fields.throttle.getD 0) (msg.fields.brake.getD 0)).2.1 = 0
      rw [h1, h2]
      simp [syncDriverInputs]
  · intro h
    show powerOf msg.fields = msg.fields.voltage_v.getD 0 * msg.fields.current_a.getD 0
    unfold powerOf
    rw [h]
    norm_num
  · intro h hsq
    have hta : (normalize cfg sqrtF mockMode st msg).1.total_acceleration =
        sqrtF ((msg.fields.accel_x.getD 0) ^ 2 + (msg.fields.accel_y.getD 0) ^ 2 +
          (msg.fields.accel_z.getD 0) ^ 2) := by
      show totalAccelOf sqrtF msg.fields = _
      unfold totalAccelOf
      rw [h]
      norm_num
    rw [hta]
    exact hsq

/-- Witness: a message carrying only a voltage is normalized with every
other field defaulted, power recomputed, and the zero accel vector
mapped to total acceleration 0 by the zero-correct oracle. -/
theorem C2_normalizer_defaults_witness :
    (normalize defaultConfig (fun _ => 0) false (DetState.init defaultConfig)
        ⟨{ voltage_v := some 42 }, none⟩).1.speed_ms = 0 ∧
      (normalize defaultConfig (fun _ => 0) false (DetState.init defaultConfig)
        ⟨{ voltage_v := some 42 }, none⟩).1.power_w =
        (normalize defaultConfig (fun _ => 0) false (DetState.init defaultConfig)
          ⟨{ voltage_v := some 42 }, none⟩).1.voltage_v *
        (normalize defaultConfig (fun _ => 0) false (DetState.init defaultConfig)
          ⟨{ voltage_v := some 42 }, none⟩).1.current_a ∧
      (normalize defaultConfig (fun _ => 0) false (DetState.init defaultConfig)
        ⟨{ voltage_v := some 42 }, none⟩).1.total_acceleration ^ 2 =
        (normalize defaultConfig (fun _ => 0) false (DetState.init defaultConfig)
          ⟨{ voltage_v := some 42 }, none⟩).1.accel_x ^ 2 +
        (normalize defaultConfig (fun _ => 0) false (DetState.init defaultConfig)
          ⟨{ voltage_v := some 42 }, none⟩).1.accel_y ^ 2 +
        (normalize defaultConfig (fun _ => 0) false (DetState.init defaultConfig)
          ⟨{ voltage_v := some 42 }, none⟩).1.accel_z ^ 2 := by
  have h := C2_normalizer_defaults defaultConfig (fun _ => 0) false
    (DetState.init defaultConfig) ⟨{ voltage_v := some 42 }, none⟩
  refine ⟨h.1 rfl, h.2.2.2.2.2.2.2.2.2.2.2.2.2.2.2.2.2.2.1 rfl, ?_⟩
  exact (h.2.2.2.2.2.2.2.2.2.2.2.2.2.2.2.2.2.2.2 rfl
    (by constructor <;> norm_num)).2

set_option maxRecDepth 1000000 in
/-- C3 as stated is false: the reconciliation only fills whichever side
of a driver-input pair is zero, so an input carrying the inconsistent
nonzero pair throttle = 0.5, throttle_pct = 30 is passed through
unchanged and the claimed 0.01 consistency fails by 20 percent. -/
theorem C3_driver_sync_counterexample :
    (normalize defaultConfig (fun _ => 0) false (DetState.init defaultConfig)
        ⟨{ throttle := some (1/2), throttle_pct := some 30 }, none⟩).1.throttle_pct = 30 ∧
      (normalize defaultConfig (fun _ => 0) false (DetState.init defaultConfig)
        ⟨{ throttle := some (1/2), throttle_pct := some 30 }, none⟩).1.throttle = 1/2 ∧
      ¬(pyAbs ((normalize defaultConfig (fun _ => 0) false (DetState.init defaultConfig)
          ⟨{ throttle := some (1/2), throttle_pct := some 30 }, none⟩).1.throttle_pct -
        100 * (normalize defaultConfig (fun _ => 0) false (DetState.init defaultConfig)
          ⟨{ throttle := some (1/2), throttle_pct := some 30 }, none⟩).1.throttle) ≤ 1/100) := by
  refine ⟨by with_unfolding_all decide, by with_unfolding_all decide,
    by with_unfolding_all decide⟩

/-- C3 amended: the reconciliation only fills the zero side of each
driver-input pair, so mutual consistency holds for inputs that carry at
most one nonzero value per pair within the legal ranges; because the
unit side is rounded to 3 decimals when filled from the percent side,
the guaranteed bound is 0.05 (0.005 in the other direction), not 0.01. -/
theorem C3_driver_sync_amended (cfg : OutlierConfig) (sqrtF : ℚ → ℚ)
    (mockMode : Bool) (st : DetState) (msg : RawMsg)
    (ht0 : 0 ≤ msg.fields.throttle.getD 0) (ht1 : msg.fields.throttle.getD 0 ≤ 1)
    (htp0 : 0 ≤ msg.fields.throttle_pct.getD 0) (htp1 : msg.fields.throttle_pct.getD 0 ≤ 100)
    (htone : msg.fields.throttle.getD 0 = 0 ∨ msg.fields.throttle_pct.getD 0 = 0)
    (hb0 : 0 ≤ msg.fields.brake.getD 0) (hb1 : msg.fields.brake.getD 0 ≤ 1)
    (hbp0 : 0 ≤ msg.fields.brake_pct.getD 0) (hbp1 : msg.fields.brake_pct.getD 0 ≤ 100)
    (hbone : msg.fields.brake.getD 0 = 0 ∨ msg.fields.brake_pct.getD 0 = 0) :
    |(normalize cfg sqrtF mockMode st msg).1.throttle_pct -
        100 * (normalize cfg sqrtF mockMode st msg).1.throttle| ≤ 1/20 ∧
      |(normalize cfg sqrtF mockMode st msg).1.brake_pct -
        100 * (normalize cfg sqrtF mockMode st msg).1.brake| ≤ 1/20 := by
  constructor
  · exact syncPair_consistent (msg.fields.throttle_pct.getD 0) (msg.fields.throttle.getD 0)
      htp0 htp1 ht0 ht1 htone
  · exact syncPair_consistent (msg.fields.brake_pct.getD 0) (msg.fields.brake.getD 0)
      hbp0 hbp1 hb0 hb1 hbone

/-- Witness: throttle given only in 0..1 form and brake only in
percent form, with a percent value whose 3-decimal unit rounding
reaches the 0.04 error the 0.01 claim cannot absorb. -/
theorem C3_driver_sync_amended_witness :
    |(normalize defaultConfig (fun _ => 0) false (DetState.init defaultConfig)
        ⟨{ throttle := some (1/2), brake_pct := some (751/25) }, none⟩).1.throttle_pct -
      100 * (normalize defaultConfig (fun _ => 0) false (DetState.init defaultConfig)
        ⟨{ throttle := some (1/2), brake_pct := some (751/25) }, none⟩).1.throttle| ≤ 1/20 ∧
    |(normalize defaultConfig (fun _ => 0) false (DetState.init defaultConfig)
        ⟨{ throttle := some (1/2), brake_pct := some (751/25) }, none⟩).1.brake_pct -
      100 * (normalize defaultConfig (fun _ => 0) false (DetState.init defaultConfig)
        ⟨{ throttle := some (1/2), brake_pct := some (751/25) }, none⟩).1.brake| ≤ 1/20 :=
  C3_driver_sync_amended defaultConfig (fun _ => 0) false (DetState.init defaultConfig)
    ⟨{ throttle := some (1/2), brake_pct := some (751/25) }, none⟩
    (by norm_num) (by norm_num) (by norm_num) (by norm_num) (by norm_num)
    (by norm_num) (by norm_num) (by norm_num) (by norm_num) (by norm_num)

/-! ### C4: RollingWindow count / last_n behaviour -/

theorem list_take_set_succ (l : List ℚ) (n : ℕ) (a : ℚ) (h : n < l.length) :
    (l.set n a).take (n + 1) = l.take n ++ [a] := by
  rw [List.set_eq_take_cons_drop a h]
  have hlen : (l.take n).length = n := by
    rw [List.length_take]; omega
  have h2 := @List.take_append ℚ (l.take n) (a :: l.drop (n + 1)) 1
  rw [hlen] at h2
  rw [h2]
  rfl

theorem list_set_last (l : List ℚ) (n : ℕ) (a : ℚ) (h : n + 1 = l.length) :
    l.set n a = l.take n ++ [a] := by
  rw [List.set_eq_take_cons_drop a (by omega)]
  have hd : l.drop (n + 1) = [] := by
    rw [h]; exact List.drop_length l
  rw [hd]

theorem list_drop_sub_one (l : List ℚ) (h : l ≠ []) :
    l.drop (l.length - 1) = [l.getLast h] := by
  induction l with
  | nil => exact absurd rfl h
  | cons x t ih =>
    cases t with
    | nil => rfl
    | cons y s =>
      have hne : (y :: s : List ℚ) ≠ [] := by simp
      have hlen : (x :: y :: s).length - 1 = (y :: s).length := by simp
      rw [hlen]
      have hsucc : (y :: s).length = ((y :: s).length - 1) + 1 := by simp
      rw [hsucc, List.drop_succ_cons, ih hne]
      exact congrArg (fun z => [z]) (List.getLast_cons hne).symm

theorem lastSlice_lastSlice (m n : ℕ) (l : List ℚ) (h : m ≤ n) :
    lastSlice m (lastSlice n l) = lastSlice m l := by
  unfold lastSlice
  rw [List.length_drop, List.drop_drop]
  congr 1
  omega

theorem lastSlice_append_abs (n : ℕ) (l t : List ℚ) :
    lastSlice n (lastSlice n l ++ t) = lastSlice n (l ++ t) := by
  unfold lastSlice
  rcases Nat.lt_or_ge l.length n with hL | hL
  · have h0 : l.length - n = 0 := by omega
    rw [h0, List.drop_zero]
  · have hlen : (l.drop (l.length - n)).length = n := by
      rw [List.length_drop]; omega
    rw [List.length_append, List.length_append, hlen]
    have hamt : n + t.length - n = t.length := by omega
    rw [hamt]
    rcases Nat.lt_or_ge t.length n with hT | hT
    · rw [List.drop_append_of_le_length (by rw [hlen]; omega),
          List.drop_drop,
          List.drop_append_of_le_length (by omega)]
      have : l.length - n + t.length = l.length + t.length - n := by omega
      rw [this]
    · have e1 := @List.drop_append ℚ (l.drop (l.length - n)) t (t.length - n)
      rw [hlen] at e1
      have hn1 : n + (t.length - n) = t.length := by omega
      rw [hn1] at e1
      have e2 := @List.drop_append ℚ l t (t.length - n)
      have hn2 : l.length + (t.length - n) = l.length + t.length - n := by omega
      rw [hn2] at e2
      rw [e1, e2]

theorem rwin_init_WF (N : ℕ) (hN : 0 < N) : (RollingWindow.init N).WF :=
  ⟨hN, by simp [RollingWindow.init], by simp [RollingWindow.init],
   by simpa [RollingWindow.init] using hN, fun _ => rfl⟩

theorem rwin_content_init (N : ℕ) (hN : 0 < N) : (RollingWindow.init N).content = [] := by
  simp [RollingWindow.content, RollingWindow.init, hN]

theorem rwin_push_WF {w : RollingWindow} (hw : w.WF) (v : ℚ) : (w.push v).WF := by
  obtain ⟨pos, len, countLe, idxLt, fillIdx⟩ := hw
  refine ⟨pos, ?_, ?_, ?_, ?_⟩ <;> simp only [RollingWindow.push]
  · rw [List.length_set]; exact len
  · omega
  · exact Nat.mod_lt _ pos
  · intro hlt
    have h2 : w.index = w.count := fillIdx (by omega)
    rw [h2, Nat.mod_eq_of_lt (by omega)]
    omega

theorem rwin_content_length {w : RollingWindow} (hw : w.WF) :
    w.content.length = w.count := by
  obtain ⟨pos, len, countLe, idxLt, fillIdx⟩ := hw
  unfold RollingWindow.content
  split
  · rw [List.length_take]; omega
  · rw [List.length_append, List.length_drop, List.length_take]
    omega

theorem rwin_pushAll_WF {w : RollingWindow} (hw : w.WF) (xs : List ℚ) :
    (w.pushAll xs).WF := by
  induction xs generalizing w with
  | nil => exact hw
  | cons x t ih => exact ih (rwin_push_WF hw x)

theorem rwin_pushAll_count (xs : List ℚ) : ∀ (w : RollingWindow), w.count ≤ w.size →
    (w.pushAll xs).count = min (w.count + xs.length) w.size ∧
    (w.pushAll xs).size = w.size := by
  induction xs with
  | nil =>
    intro w hc
    exact ⟨by simp [RollingWindow.pushAll]; omega, rfl⟩
  | cons x t ih =>
    intro w hc
    have h := ih (w.push x) (by simp [RollingWindow.push])
    simp only [RollingWindow.pushAll, List.foldl_cons] at h ⊢
    refine ⟨?_, h.2⟩
    rw [h.1]
    simp only [RollingWindow.push]
    simp only [List.length_cons]
    omega

theorem rwin_content_push {w : RollingWindow} (hw : w.WF) (v : ℚ) :
    (w.push v).content = lastSlice w.size (w.content ++ [v]) := by
  have pos := hw.pos
  have len := hw.len
  have countLe := hw.countLe
  have idxLt := hw.idxLt
  simp only [RollingWindow.push, RollingWindow.content, lastSlice]
  rcases Nat.lt_or_ge (w.count + 1) w.size with hlt | hge
  · have hidx : w.index = w.count := hw.fillIdx (by omega)
    have hmin : min (w.count + 1) w.size = w.count + 1 := by omega
    rw [hmin, if_pos hlt, if_pos (show w.count < w.size by omega)]
    rw [List.length_append, List.length_take, List.length_singleton]
    rw [show min w.count w.buffer.length + 1 - w.size = 0 from by omega, List.drop_zero, hidx]
    exact list_take_set_succ w.buffer w.count v (by omega)
  · have hminN : min (w.count + 1) w.size = w.size := by omega
    rw [hminN, if_neg (lt_irrefl w.size)]
    rcases Nat.lt_or_ge w.count w.size with hcN | hge2
    · have hidx : w.index = w.count := hw.fillIdx hcN
      have hceq : w.count + 1 = w.size := by omega
      have hmod : (w.index + 1) % w.size = 0 := by
        rw [hidx, hceq]; exact Nat.mod_self w.size
      rw [if_pos hcN, hmod, List.drop_zero, List.take_zero, List.append_nil]
      rw [List.length_append, List.length_take, List.length_singleton]
      rw [show min w.count w.buffer.length + 1 - w.size = 0 from by omega, List.drop_zero]
      rw [hidx]
      exact list_set_last w.buffer w.count v (by omega)
    · rw [if_neg (show ¬ w.count < w.size by omega)]
      have hlen2 : ((w.buffer.drop w.index ++ w.buffer.take w.index) ++ [v]).length - w.size = 1 := by
        simp only [List.length_append, List.length_drop, List.length_take,
          List.length_singleton]
        omega
      rw [hlen2, List.append_assoc]
      rw [List.drop_append_of_le_length (show 1 ≤ (w.buffer.drop w.index).length by
        rw [List.length_drop]; omega)]
      rw [List.drop_drop]
      rcases Nat.lt_or_ge (w.index + 1) w.size with hi | hi
      · rw [Nat.mod_eq_of_lt hi]
        rw [List.drop_set_of_lt v w.buffer (Nat.lt_succ_self w.index),
            list_take_set_succ w.buffer w.index v (by omega)]
      · have hieq : w.index + 1 = w.size := by omega
        have hmod : (w.index + 1) % w.size = 0 := by
          rw [hieq]; exact Nat.mod_self w.size
        rw [hmod, List.drop_zero, List.take_zero, List.append_nil]
        rw [list_set_last w.buffer w.index v (by omega)]
        rw [show w.index + 1 = w.buffer.length from by omega, List.drop_length,
            List.nil_append]

theorem rwin_pushAll_content (xs : List ℚ) : ∀ (w : RollingWindow), w.WF →
    (w.pushAll xs).content = lastSlice w.size (w.content ++ xs) := by
  induction xs with
  | nil =>
    intro w hw
    simp only [RollingWindow.pushAll, List.foldl_nil, List.append_nil, lastSlice]
    have hcl : w.content.length = w.count := rwin_content_length hw
    have hle := hw.countLe
    rw [show w.content.length - w.size = 0 from by
      rw [hcl]; omega, List.drop_zero]
  | cons x t ih =>
    intro w hw
    have hstep := ih (w.push x) (rwin_push_WF hw x)
    simp only [RollingWindow.pushAll, List.foldl_cons] at hstep ⊢
    rw [hstep, show (w.push x).size = w.size from rfl,
        rwin_content_push hw x, lastSlice_append_abs]
    rw [List.append_assoc]
    rfl

theorem rwin_lastN_lastSlice {w : RollingWindow} (hw : w.WF) (k : ℕ) (hk : 1 ≤ k) :
    w.lastN k = lastSlice (min k w.count) w.content := by
  have pos := hw.pos
  have len := hw.len
  have countLe := hw.countLe
  have idxLt := hw.idxLt
  simp only [RollingWindow.lastN, RollingWindow.content, lastSlice]
  split
  · next hc0 =>
    rw [hc0, if_pos (by omega), Nat.min_zero, List.take_zero]
    rfl
  · next hc0 =>
    split
    · next hcN =>
      simp only [pySlice, List.length_take]
      congr 1
      omega
    · next hcN =>
      have hcs : w.count = w.size := by omega
      have hn1 : 1 ≤ min k w.count := by omega
      have hnc : min k w.count ≤ w.size := by omega
      rcases Nat.lt_or_ge w.index (min k w.count) with hni | hni
      · have hs : (w.index + w.size - min k w.count) % w.size
            = w.index + w.size - min k w.count := by
          exact Nat.mod_eq_of_lt (by omega)
        rw [hs, if_neg (by omega)]
        simp only [pySliceFrom, pySliceTo]
        rw [List.length_append, List.length_drop, List.length_take]
        rw [List.drop_append_of_le_length (by rw [List.length_drop]; omega)]
        rw [List.drop_drop]
        congr 2
        omega
      · have hs : (w.index + w.size - min k w.count) % w.size
            = w.index - min k w.count := by
          rw [show w.index + w.size - min k w.count
              = w.size + (w.index - min k w.count) from by omega,
            Nat.add_mod_left]
          exact Nat.mod_eq_of_lt (by omega)
        rw [hs, if_pos (by omega)]
        simp only [pySlice]
        rw [List.length_append, List.length_drop, List.length_take]
        have e2 := @List.drop_append ℚ (w.buffer.drop w.index) (w.buffer.take w.index)
          (w.index - min k w.count)
        rw [List.length_drop] at e2
        rw [show w.buffer.length - w.index + min w.index w.buffer.length
              - min k w.count
            = w.buffer.length - w.index + (w.index - min k w.count) from by omega]
        rw [e2]

theorem rwin_pushAll_init_count (N : ℕ) (xs : List ℚ) :
    ((RollingWindow.init N).pushAll xs).count = min xs.length N := by
  have h := rwin_pushAll_count xs (RollingWindow.init N) (by simp [RollingWindow.init])
  rw [h.1]
  simp [RollingWindow.init]

theorem rwin_pushAll_init_content (N : ℕ) (hN : 0 < N) (xs : List ℚ) :
    ((RollingWindow.init N).pushAll xs).content = lastSlice N xs := by
  rw [rwin_pushAll_content xs (RollingWindow.init N) (rwin_init_WF N hN),
      rwin_content_init N hN]
  rfl

/-- C4 (amended): for a rolling window of capacity N > 0, after pushing the
sequence xs from a fresh window: count = min |xs| N — so count = M after
M ≤ N pushes and count = N after N + K pushes; for every k ≥ 1, last_n(k)
returns the min(k, count) most recently pushed values in push order,
transparently across buffer wraparound, and last_n(1) is the last pushed
value.  The claim's unrestricted "last_n(k)" fails at k = 0 on a full
buffer, where the code returns the entire buffer instead of no values (see
the counterexample). -/
theorem C4_rolling_window_amended (N : ℕ) (hN : 0 < N) (xs : List ℚ) :
    ((RollingWindow.init N).pushAll xs).count = min xs.length N
    ∧ (xs.length ≤ N → ((RollingWindow.init N).pushAll xs).count = xs.length)
    ∧ (N ≤ xs.length → ((RollingWindow.init N).pushAll xs).count = N)
    ∧ (∀ k, 1 ≤ k →
        ((RollingWindow.init N).pushAll xs).lastN k
          = lastSlice (min k (min xs.length N)) xs)
    ∧ (∀ h : xs ≠ [],
        ((RollingWindow.init N).pushAll xs).lastN 1 = [xs.getLast h]) := by
  have hWF := rwin_pushAll_WF (rwin_init_WF N hN) xs
  have hcnt := rwin_pushAll_init_count N xs
  have hcontent := rwin_pushAll_init_content N hN xs
  have hlast : ∀ k, 1 ≤ k → ((RollingWindow.init N).pushAll xs).lastN k
      = lastSlice (min k (min xs.length N)) xs := by
    intro k hk
    rw [rwin_lastN_lastSlice hWF k hk, hcnt, hcontent]
    exact lastSlice_lastSlice _ N xs (by omega)
  refine ⟨hcnt, ?_, ?_, hlast, ?_⟩
  · intro h; rw [hcnt]; omega
  · intro h; rw [hcnt]; omega
  · intro h
    have hlen : 1 ≤ xs.length := List.length_pos.mpr h
    rw [hlast 1 le_rfl, show min 1 (min xs.length N) = 1 from by omega]
    unfold lastSlice
    exact list_drop_sub_one xs h

/-- Witness for C4: capacity 2 and pushes [1, 2, 3]; last_n(2) returns the
two most recent values [2, 3] across the wraparound. -/
theorem C4_rolling_window_amended_witness :
    (0:ℕ) < 2
    ∧ ((RollingWindow.init 2).pushAll [1, 2, 3]).lastN 2
        = lastSlice (min 2 (min ([1, 2, 3] : List ℚ).length 2)) [1, 2, 3]
    ∧ ((RollingWindow.init 2).pushAll [1, 2, 3]).lastN 2 = [2, 3] :=
  ⟨by decide,
   (C4_rolling_window_amended 2 (by decide) [1, 2, 3]).2.2.2.1 2 (by decide),
   rfl⟩

/-- Counterexample for C4 as claimed: last_n(0) on a full window of capacity
1 holding the single pushed value 5 returns the whole buffer [5], not the
empty list of the min(0, count) = 0 most recent values. -/
theorem C4_rolling_window_counterexample :
    ((RollingWindow.init 1).pushAll [5]).lastN 0 = [5]
    ∧ lastSlice (min 0 ((RollingWindow.init 1).pushAll [5]).count) [5] = ([] : List ℚ)
    ∧ ([5] : List ℚ) ≠ [] :=
  ⟨rfl, rfl, by decide⟩

end Telemetry
